import Mathlib

/-!
Verification of the Argus Terminal decision-and-simulation core.

This file is a shallow embedding, over exact rationals, of:
  * the technical-indicator library (`indicatorService`),
  * the Council decision synthesizer (`analysisService`),
  * the dynamic risk-level calculator (`riskManagementService`),
  * the backtest engine (`backtestEngine`),
  * the paper-trading portfolio operations (`paperTradingService`),
together with theorems settling the specification's claims about them.

Modelling conventions (JavaScript semantics):
  * JS numbers are modelled by `ℚ`.  All arithmetic in the claims under
    study is exact at the inputs used; where JS would produce `NaN`
    (0/0) or `Infinity` (x/0) the rational model yields 0 — each such
    spot is marked with a comment, and no theorem below depends on the
    value produced there.
  * `Math.sqrt` is modelled by `ratSqrt`, which is exact on
    perfect-square rationals; every square root actually evaluated in a
    theorem below is of a perfect square (in fact of 0).
  * Arrays of `number | null` become `List (Option ℚ)`; JS `arr[i]`
    out-of-range reads (which give `undefined`, treated like `null` by
    the `!== null` guards) become `List.getD i none`.
  * The JS idiom `x || d` on a nullable number (null, undefined and 0
    are falsy) is `jsOr`.
  * A JS property access on a key the object does not have yields
    `undefined`, and indexing `undefined` throws a `TypeError`; this is
    modelled by a string-keyed accessor returning `Option` plus
    `jsIndex`, which maps the `none` case to `Except.error`.

The rational arithmetic operations are restored to their definitional
transparency so that concrete runs of the embedded code can be settled
by kernel computation (`decide`); this affects elaboration only and is
invisible to the final kernel check.
-/

set_option maxRecDepth 8000

set_option allowUnsafeReducibility true in
attribute [semireducible] Rat.add Rat.mul Rat.inv Rat.sub Rat.neg

/-- Equality on `Except` results is decidable (used to settle concrete
runs of the fallible backtest by computation). -/
instance instDecidableEqExcept {e a : Type} [DecidableEq e] [DecidableEq a] :
    DecidableEq (Except e a) := fun x y =>
  match x, y with
  | .ok v, .ok w =>
    if h : v = w then isTrue (by rw [h]) else isFalse (fun g => h (by injection g))
  | .error v, .error w =>
    if h : v = w then isTrue (by rw [h]) else isFalse (fun g => h (by injection g))
  | .ok _, .error _ => isFalse (fun g => by injection g)
  | .error _, .ok _ => isFalse (fun g => by injection g)

/-- JS `x || d` for a nullable number: `null`/`undefined` and `0` are falsy. -/
def jsOr (x : Option ℚ) (d : ℚ) : ℚ :=
  match x with
  | none => d
  | some v => if v = 0 then d else v

/-- Model of `Math.sqrt` on the nonnegative rationals produced by the code:
exact on perfect squares (every instance evaluated in this file is `ratSqrt 0`). -/
def ratSqrt (q : ℚ) : ℚ :=
  (Nat.sqrt q.num.toNat : ℚ) / (Nat.sqrt q.den : ℚ)

/-- One OHLCV bar (`types.ts`, `Candle`); the `id` field and the concrete
date representation play no role in the computations, the date is kept as a
natural-number timestamp for the record fields that carry it along. -/
structure Candle where
  date : ℕ
  openPrice : ℚ
  high : ℚ
  low : ℚ
  close : ℚ
  volume : ℚ
deriving Repr, DecidableEq, Inhabited

/-! ## Indicator library (`indicatorService.ts`) -/

/-- Source `calculateSMA` — arithmetic mean of the trailing `period` window;
indices `< period - 1` are null, and an input shorter than `period`
yields an all-null series. -/
def calculateSMA (values : List ℚ) (period : ℕ) : List (Option ℚ) :=
  if values.length < period then List.replicate values.length none
  else (List.range values.length).map fun i =>
    if period - 1 ≤ i then
      some (((values.drop (i + 1 - period)).take period).sum / period)
    else none

/-- The EMA recurrence `ema := v * k + ema * (1 - k)` applied successively. -/
def emaScan (k : ℚ) : ℚ → List ℚ → List ℚ
  | _, [] => []
  | prev, v :: rest =>
    let e := v * k + prev * (1 - k)
    e :: emaScan k e rest

/-- Source `calculateEMA` — seeded with the SMA of the first `period` values at
index `period - 1`, then the recurrence with `k = 2 / (period + 1)`. -/
def calculateEMA (values : List ℚ) (period : ℕ) : List (Option ℚ) :=
  if values.length < period then List.replicate values.length none
  else
    List.replicate (period - 1) none
      ++ [some ((values.take period).sum / period)]
      ++ (emaScan (2 / ((period : ℚ) + 1)) ((values.take period).sum / period)
            (values.drop period)).map some

/-- The price change `values[i] - values[i-1]` used by RSI (read at `i ≥ 1`). -/
def chg (values : List ℚ) (i : ℕ) : ℚ :=
  values.getD i 0 - values.getD (i - 1) 0

/-- Source `change > 0 ? change : 0`. -/
def gainOf (c : ℚ) : ℚ := if 0 < c then c else 0

/-- Source `change < 0 ? -change : 0`. -/
def lossOf (c : ℚ) : ℚ := if c < 0 then -c else 0

/-- Wilder smoothing of `f (chg values _)` as carried by the RSI loop:
`j = 0` is the seed average over changes `1..period` (the value the loop
holds at source index `period`), and `j+1` performs
`avg := (avg * (period - 1) + f (chg (period + j + 1))) / period`,
the value held at source index `period + j + 1`. -/
def wilderAvg (period : ℕ) (f : ℚ → ℚ) (values : List ℚ) : ℕ → ℚ
  | 0 => ((List.range period).map fun t => f (chg values (t + 1))).sum / period
  | j + 1 =>
    (wilderAvg period f values j * ((period : ℚ) - 1)
      + f (chg values (period + j + 1))) / period

/-- The RSI value emitted at source index `period + j`: 100 when the average
loss is zero, else `100 - 100 / (1 + rs)` with `rs = avgGain / avgLoss`. -/
def rsiAt (values : List ℚ) (period : ℕ) (j : ℕ) : ℚ :=
  if wilderAvg period lossOf values j = 0 then 100
  else 100 - 100 / (1 + wilderAvg period gainOf values j / wilderAvg period lossOf values j)

/-- Source `calculateRSI` — all-null when `values.length <= period`, otherwise
null below index `period` and the Wilder-smoothed RSI from there on. -/
def calculateRSI (values : List ℚ) (period : ℕ) : List (Option ℚ) :=
  if values.length ≤ period then List.replicate values.length none
  else (List.range values.length).map fun i =>
    if period ≤ i then some (rsiAt values period (i - period)) else none

/-- Result shape of `calculateMACD` (fields named exactly as the source
returns them: `macd`, `signal`, `histogram`). -/
structure MacdResult where
  macd : List (Option ℚ)
  signal : List (Option ℚ)
  histogram : List (Option ℚ)
deriving Repr, DecidableEq

/-- JS property lookup on a `MacdResult` object: only the three fields the
object actually has yield a value; any other key reads as `undefined`. -/
def macdField (m : MacdResult) (name : String) : Option (List (Option ℚ)) :=
  if name = "macd" then some m.macd
  else if name = "signal" then some m.signal
  else if name = "histogram" then some m.histogram
  else none

/-- Source `calculateMACD` — MACD line = EMA(fast) − EMA(slow) where both are
defined; the signal line is the EMA(signalPeriod) of the contiguous run of
defined MACD values, scattered back from `firstValidIndex` (the index of
the first defined MACD value); histogram = MACD − signal where both exist. -/
def calculateMACD (values : List ℚ) (fastPeriod slowPeriod signalPeriod : ℕ) :
    MacdResult :=
  let fastEMA := calculateEMA values fastPeriod
  let slowEMA := calculateEMA values slowPeriod
  let n := values.length
  let macdLine := (List.range n).map fun i =>
    match fastEMA.getD i none, slowEMA.getD i none with
    | some a, some b => some (a - b)
    | _, _ => none
  let validMacd := macdLine.filterMap id
  -- JS scans for the first non-null index (-1 when none exists; the
  -- scatter loop then writes nothing, as here when the index is `n`).
  let firstValidIndex := macdLine.findIdx fun v => v ≠ none
  let signalLineValid := calculateEMA validMacd signalPeriod
  let signalLine := (List.range n).map fun i =>
    if firstValidIndex ≤ i then signalLineValid.getD (i - firstValidIndex) none
    else none
  let histogram := (List.range n).map fun i =>
    match macdLine.getD i none,
        (if firstValidIndex ≤ i then signalLineValid.getD (i - firstValidIndex) none
         else none) with
    | some a, some b => some (a - b)
    | _, _ => none
  { macd := macdLine, signal := signalLine, histogram := histogram }

/-- Result shape of `calculateBollingerBands`. -/
structure BollResult where
  upper : List (Option ℚ)
  middle : List (Option ℚ)
  lower : List (Option ℚ)
deriving Repr, DecidableEq

/-- Source `calculateBollingerBands` — middle = SMA(period); upper/lower =
middle ± multiplier × population standard deviation of the trailing window
(the source reads `sma[i]!`; at every index the loop visits that value is
defined, and the model reads it with default 0 as `jsBang`). -/
def calculateBollingerBands (values : List ℚ) (period : ℕ) (stdDevMultiplier : ℚ) :
    BollResult :=
  let sma := calculateSMA values period
  let n := values.length
  let band := fun (sign : ℚ) => (List.range n).map fun i =>
    if period - 1 ≤ i then
      some (((sma.getD i none).getD 0) + sign *
        ratSqrt ((((values.drop (i + 1 - period)).take period).map
          (fun v => (v - ((sma.getD i none).getD 0)) ^ 2)).sum / period)
        * stdDevMultiplier)
    else none
  { upper := band 1, middle := sma, lower := band (-1) }

/-- The true-range series of `calculateATR` / `calculateADX`:
`tr[0] = high - low`, and for `i ≥ 1`
`tr[i] = max(high - low, |high - prevClose|, |low - prevClose|)`. -/
def trList (candles : List Candle) : List ℚ :=
  match candles with
  | [] => []
  | c0 :: rest =>
    (c0.high - c0.low) ::
      (candles.zip rest).map fun pc =>
        max (pc.2.high - pc.2.low)
          (max |pc.2.high - pc.1.close| |pc.2.low - pc.1.close|)

/-- The ATR value at source index `period - 1 + j`: `j = 0` is the simple
mean of the first `period` true ranges, then Wilder smoothing
`atr := (atr * (period - 1) + tr[i]) / period`. -/
def atrFrom (period : ℕ) (trs : List ℚ) : ℕ → ℚ
  | 0 => (trs.take period).sum / period
  | j + 1 => (atrFrom period trs j * ((period : ℚ) - 1) + trs.getD (period + j) 0) / period

/-- Source `calculateATR` — all-null when `candles.length <= period`, otherwise
null below index `period - 1` and the smoothed ATR from there on. -/
def calculateATR (candles : List Candle) (period : ℕ) : List (Option ℚ) :=
  if candles.length ≤ period then List.replicate candles.length none
  else (List.range candles.length).map fun i =>
    if period - 1 ≤ i then some (atrFrom period (trList candles) (i - (period - 1)))
    else none

/-- Source `calculateStochastic` — %K = (close − lowestLow) / (highestHigh − lowestLow) × 100
over the trailing `kPeriod` window (50 when the range is zero); %D = SMA(dPeriod)
of the non-null %K values when the window holds `dPeriod` of them. -/
def calculateStochastic (candles : List Candle) (kPeriod dPeriod : ℕ) :
    (List (Option ℚ)) × (List (Option ℚ)) :=
  let n := candles.length
  let kValues : List (Option ℚ) :=
    if n < kPeriod then List.replicate n none
    else (List.range n).map fun i =>
      if kPeriod - 1 ≤ i then
        let slice := (candles.drop (i + 1 - kPeriod)).take kPeriod
        let lowestLow := ((slice.map (·.low)).foldr min (slice.map (·.low)).headI)
        let highestHigh := ((slice.map (·.high)).foldr max (slice.map (·.high)).headI)
        if highestHigh ≠ lowestLow then
          some ((((candles.getD i default).close) - lowestLow) / (highestHigh - lowestLow) * 100)
        else some 50
      else none
  let dValues : List (Option ℚ) := (List.range n).map fun i =>
    if kPeriod + dPeriod - 2 ≤ i then
      let kSlice := ((kValues.drop (i + 1 - dPeriod)).take dPeriod).filterMap id
      if kSlice.length = dPeriod then some (kSlice.sum / dPeriod) else none
    else none
  (kValues, dValues)

/-- Source `calculateCCI` — (typicalPrice − SMA(tp)) / (0.015 × mean absolute
deviation), null when the mean deviation is zero. -/
def calculateCCI (candles : List Candle) (period : ℕ) : List (Option ℚ) :=
  let n := candles.length
  if n < period then List.replicate n none
  else
    let typicalPrices := candles.map fun c => (c.high + c.low + c.close) / 3
    let sma := calculateSMA typicalPrices period
    (List.range n).map fun i =>
      if period - 1 ≤ i then
        let mean := (sma.getD i none).getD 0
        let meanDeviation :=
          (((typicalPrices.drop (i + 1 - period)).take period).map
            (fun v => |v - mean|)).sum / period
        if meanDeviation ≠ 0 then
          some ((typicalPrices.getD i 0 - mean) / ((15 : ℚ)/1000 * meanDeviation))
        else none
      else none

/-- The +DM series of `calculateADX` (0 at index 0). -/
def plusDMList (candles : List Candle) : List ℚ :=
  match candles with
  | [] => []
  | _ :: rest =>
    0 :: (candles.zip rest).map fun pc =>
      let upMove := pc.2.high - pc.1.high
      let downMove := pc.1.low - pc.2.low
      if upMove > downMove ∧ upMove > 0 then upMove else 0

/-- The −DM series of `calculateADX` (0 at index 0). -/
def minusDMList (candles : List Candle) : List ℚ :=
  match candles with
  | [] => []
  | _ :: rest =>
    0 :: (candles.zip rest).map fun pc =>
      let upMove := pc.2.high - pc.1.high
      let downMove := pc.1.low - pc.2.low
      if downMove > upMove ∧ downMove > 0 then downMove else 0

/-- The `smooth` helper of `calculateADX` at source index `period + j`:
the seed is the sum of the first `period + 1` values, then
`s := s - s / period + values[i]`. -/
def adxSmoothAt (period : ℕ) (vals : List ℚ) : ℕ → ℚ
  | 0 => (vals.take (period + 1)).sum
  | j + 1 =>
    adxSmoothAt period vals j - adxSmoothAt period vals j / period
      + vals.getD (period + j + 1) 0

/-- The DX value of `calculateADX` at source index `period + j`. -/
def dxAt (period : ℕ) (candles : List Candle) (j : ℕ) : ℚ :=
  let trS := adxSmoothAt period (trList candles) j
  let plusDI := adxSmoothAt period (plusDMList candles) j / trS * 100
  let minusDI := adxSmoothAt period (minusDMList candles) j / trS * 100
  if plusDI + minusDI ≠ 0 then |plusDI - minusDI| / (plusDI + minusDI) * 100 else 0

/-- Source `calculateADX` — all-null when `candles.length <= 2 * period`; from index
`2 * period` on, the mean of the DX values over source indices
`[i - period, i - 1]` minus the `period` offset into the DX list. -/
def calculateADX (candles : List Candle) (period : ℕ) : List (Option ℚ) :=
  let n := candles.length
  if n ≤ period * 2 then List.replicate n none
  else (List.range n).map fun i =>
    if period * 2 ≤ i then
      -- dxValues[j] holds DX at source index period + j; the source takes
      -- dxValues.slice(i - 2*period, i - period), i.e. j over that range.
      let dxSlice := (List.range' (i - period * 2) period).map (dxAt period candles)
      if dxSlice.length > 0 then some (dxSlice.sum / (dxSlice.length : ℚ)) else none
    else none

/-! ## Council decision synthesizer (`analysisService.ts`) -/

/-- A vote / final-action direction. -/
inductive Dir
  | buy
  | sell
  | hold
deriving Repr, DecidableEq

/-- Source `ModuleVote` — module name, score, direction, confidence, reason. -/
structure ModuleVote where
  module : String
  score : ℚ
  direction : Dir
  confidence : ℚ
  reason : String
deriving Repr, DecidableEq

/-- Source `CouncilDecision` (the `id`, `timestamp`, `conflicts` and
`dominantSignals` fields carry I/O artifacts or constants and are not part
of the decision computation; `id` distinguishes the fallback). -/
structure CouncilDecision where
  symbol : String
  finalAction : Dir
  overallScore : ℚ
  confidence : ℚ
  votes : List ModuleVote
  reason : String
deriving Repr, DecidableEq

/-- ORION — MACD momentum and ADX trend strength. -/
def getOrionVote (candles : List Candle) : ModuleVote :=
  let closes := candles.map (·.close)
  let last := closes.length - 1
  let m := calculateMACD closes 12 26 9
  let adx := calculateADX candles 14
  let currH := jsOr (m.histogram.getD last none) 0
  let prevH := jsOr (m.histogram.getD (last - 1) none) 0
  let adxVal := jsOr (adx.getD last none) 0
  let currMACD := jsOr (m.macd.getD last none) 0
  let currSignal := jsOr (m.signal.getD last none) 0
  let momentum := currH - prevH
  let score0 := currH * 8 + momentum * 15
  let score1 := if currMACD > currSignal ∧ momentum > 0 then score0 + 20 else score0
  let score2 := if currMACD < currSignal ∧ momentum < 0 then score1 - 20 else score1
  let score := max (-100) (min 100 score2)
  { module := "Orion", score := score,
    direction := if score > 15 then .buy else if score < -15 then .sell else .hold,
    confidence := min 100 (adxVal * (5/2) + 20),
    reason := "momentum" }

/-- ATLAS — market structure from SMA 20/50/200 (the returned score is
clamped, while the direction is read from the unclamped value, as in the
source object literal). -/
def getAtlasVote (candles : List Candle) : ModuleVote :=
  let closes := candles.map (·.close)
  let last := closes.length - 1
  let s20 := jsOr ((calculateSMA closes 20).getD last none) 0
  let s50 := jsOr ((calculateSMA closes 50).getD last none) 0
  let s200 := jsOr ((calculateSMA closes 200).getD last none) 0
  let price := closes.getD last 0
  let score0 : ℚ :=
    if price > s50 ∧ s50 > s200 then 70
    else if price < s50 ∧ s50 < s200 then -70
    else if price > s20 ∧ s20 > s50 then 40
    else if price < s20 ∧ s20 < s50 then -40
    else 0
  let score :=
    if s200 > 0 then
      if (price - s200) / s200 > 1/5 then score0 - 15
      else if (price - s200) / s200 < -(1/5) then score0 + 15
      else score0
    else score0
  { module := "Atlas", score := max (-100) (min 100 score),
    direction := if score > 20 then .buy else if score < -20 then .sell else .hold,
    confidence := 85, reason := "structure" }

/-- The divisor `u - mid` of the AETHER score — the upper Bollinger band
minus the middle band at the last index (both read with the `|| 0`
coercion), exactly as `getAetherVote` divides by it. -/
def aetherDenom (candles : List Candle) : ℚ :=
  let closes := candles.map (·.close)
  let last := closes.length - 1
  let bb := calculateBollingerBands closes 20 2
  jsOr (bb.upper.getD last none) 0 - jsOr (bb.middle.getD last none) 0

/-- AETHER — Bollinger position.  The score divides by `aetherDenom`
unguarded; in JS a zero divisor makes the score `NaN` (0/0: the divisor is
zero only when the window is constant, and then `mid - p` is zero too),
which every comparison treats as false, so the direction degenerates to
`hold`; the rational model's `0/0 = 0` produces the same direction. -/
def getAetherVote (candles : List Candle) : ModuleVote :=
  let closes := candles.map (·.close)
  let last := closes.length - 1
  let bb := calculateBollingerBands closes 20 2
  let u := jsOr (bb.upper.getD last none) 0
  let mid := jsOr (bb.middle.getD last none) 0
  let p := closes.getD last 0
  let score := (mid - p) / aetherDenom candles * 80
  { module := "Aether", score := max (-100) (min 100 score),
    direction := if score > 20 then .buy else if score < -20 then .sell else .hold,
    confidence := 75,
    reason := if p ≤ jsOr (bb.lower.getD last none) 0 then "lower band"
      else if p ≥ u then "upper band" else if p > mid then "above mid" else "below mid" }

/-- HERMES — RSI and Stochastic. -/
def getHermesVote (candles : List Candle) : ModuleVote :=
  let closes := candles.map (·.close)
  let last := closes.length - 1
  let rsi := jsOr ((calculateRSI closes 14).getD last none) 50
  let kd := calculateStochastic candles 14 3
  let sk := jsOr (kd.1.getD last none) 50
  let score0 := (50 - rsi) * 2
  let score1 := if rsi < 30 ∧ sk < 20 then score0 + 30 else score0
  let score2 := if rsi > 70 ∧ sk > 80 then score1 - 30 else score1
  let score := max (-100) (min 100 score2)
  { module := "Hermes", score := score,
    direction := if score > 15 then .buy else if score < -15 then .sell else .hold,
    confidence := 70, reason := "momentum" }

/-- CHRONOS — CCI cycle reversion. -/
def getChronosVote (candles : List Candle) : ModuleVote :=
  let last := candles.length - 1
  let cci := jsOr ((calculateCCI candles 20).getD last none) 0
  let score := -cci / (3/2)
  { module := "Chronos", score := max (-100) (min 100 score),
    direction := if score > 20 then .buy else if score < -20 then .sell else .hold,
    confidence := 72, reason := "cycle" }

/-- POSEIDON — volume flow (`avgVol` sums the last 20 volumes and divides
by 20; with an all-zero volume series `volRatio` would be `NaN` in JS and
is 0 here — marked, not relied upon). -/
def getPoseidonVote (candles : List Candle) : ModuleVote :=
  let volumes := candles.map (·.volume)
  let closes := candles.map (·.close)
  let last := volumes.length - 1
  let avgVol := ((volumes.drop (volumes.length - 20)).sum) / 20
  let volRatio := volumes.getD last 0 / avgVol
  let priceChange := (closes.getD last 0 - closes.getD (last - 1) 0) / closes.getD (last - 1) 0
  let score := priceChange * volRatio * 1500
  { module := "Poseidon", score := max (-100) (min 100 score),
    direction := if score > 10 then .buy else if score < -10 then .sell else .hold,
    confidence := min 100 (volRatio * 40 + 20), reason := "volume" }

/-- ARGUS — the guardian; scores the mean of the other six votes. -/
def getArgusVote (prevVotes : List ModuleVote) : ModuleVote :=
  let avgScore := (prevVotes.map (·.score)).sum / (prevVotes.length : ℚ)
  let consensus := (prevVotes.filter fun v =>
    v.direction = (if avgScore > 0 then Dir.buy else Dir.sell)).length
  { module := "Argus", score := avgScore,
    direction := if avgScore > 10 then .buy else if avgScore < -10 then .sell else .hold,
    confidence := 90 + (consensus : ℚ), reason := "consensus" }

/-- The direct-action trigger chain of `generateCouncilDecision`
(lines 281–299 of the source): extreme-RSI overrides first, then the
4-vote consensus, else hold. -/
def councilAction (rsi : ℚ) (buyVotes sellVotes : ℕ) : Dir :=
  if rsi < 24 then .buy
  else if rsi > 78 then .sell
  else if 4 ≤ buyVotes then .buy
  else if 4 ≤ sellVotes then .sell
  else .hold

/-- The boosted confidence of `generateCouncilDecision` (lines 301–309). -/
def councilConfidence (avgScore : ℚ) (buyVotes sellVotes : ℕ) : ℚ :=
  let c0 := |avgScore| * (1/2) + ((max buyVotes sellVotes : ℕ) : ℚ) * 10
  let c1 := if 4 ≤ buyVotes ∨ 4 ≤ sellVotes then max 65 c0 else c0
  let c2 := if 6 ≤ buyVotes ∨ 6 ≤ sellVotes then max 85 c1 else c1
  min 100 c2

/-- Source `createFallbackDecision` — the canonical insufficient-data decision. -/
def createFallbackDecision (symbol : String) : CouncilDecision :=
  { symbol := symbol, finalAction := .hold, overallScore := 0,
    confidence := 0, votes := [], reason := "Yetersiz veri (Minimum 50 mum gerekli)" }

/-- The seven votes collected by `generateCouncilDecision`, in order. -/
def councilVotes (candles : List Candle) : List ModuleVote :=
  let six := [getOrionVote candles, getAtlasVote candles, getAetherVote candles,
    getHermesVote candles, getChronosVote candles, getPoseidonVote candles]
  six ++ [getArgusVote six]

/-- Source `generateCouncilDecision` — fallback below 50 candles, otherwise the
seven votes, the RSI/consensus trigger chain and the boosted confidence. -/
def generateCouncilDecision (candles : List Candle) (symbol : String) :
    CouncilDecision :=
  if candles.length < 50 then createFallbackDecision symbol
  else
    let votes := councilVotes candles
    let avgScore := (votes.map (·.score)).sum / (votes.length : ℚ)
    let buyVotes := (votes.filter fun v => v.direction = Dir.buy).length
    let sellVotes := (votes.filter fun v => v.direction = Dir.sell).length
    let closes := candles.map (·.close)
    let rsi := jsOr ((calculateRSI closes 14).getD (closes.length - 1) none) 50
    { symbol := symbol,
      finalAction := councilAction rsi buyVotes sellVotes,
      overallScore := avgScore,
      confidence := councilConfidence avgScore buyVotes sellVotes,
      votes := votes,
      reason :=
        if rsi < 24 then "KRITIK ASIRI SATIM TETIKLENDI (RSI < 24)"
        else if rsi > 78 then "KRITIK ASIRI ALIM TETIKLENDI (RSI > 78)"
        else "Konsey karari" }

/-! ## Risk level calculator (`riskManagementService.ts`) -/

/-- Trade direction for risk levels. -/
inductive TradeDirection
  | long
  | short
deriving Repr, DecidableEq

/-- Volatility classification. -/
inductive VolLevel
  | low
  | medium
  | high
deriving Repr, DecidableEq

/-- Source `RiskLevels`. -/
structure RiskLevels where
  entryPrice : ℚ
  stopLoss : ℚ
  takeProfit1 : ℚ
  takeProfit2 : ℚ
  takeProfit3 : ℚ
  stopLossPercent : ℚ
  takeProfitPercent : ℚ
  riskRewardRatio : ℚ
  atrValue : ℚ
  volatilityLevel : VolLevel
deriving Repr, DecidableEq

/-- Source `atrValues[atrValues.length - 1] || entryPrice * 0.02` — the current ATR
with the 2 %-of-entry default. -/
def dynCurrentATR (candles : List Candle) (entryPrice : ℚ) : ℚ :=
  let atrValues := calculateATR candles 14
  jsOr (atrValues.getD (atrValues.length - 1) none) (entryPrice * (2/100))

/-- Source `candles.slice(-14).reduce(...) / 14` — the mean close of the last 14
bars (the divisor is 14 regardless of how many bars exist, as in the source). -/
def dynAvgPrice (candles : List Candle) : ℚ :=
  (((candles.drop (candles.length - 14)).map (·.close)).sum) / 14

/-- The volatility classification of `calculateDynamicRiskLevels`:
ATR as a percent of the 14-bar average close, `< 2` low, `< 5` medium,
else high. -/
def dynVolatility (candles : List Candle) (entryPrice : ℚ) : VolLevel :=
  let atrPercent := dynCurrentATR candles entryPrice / dynAvgPrice candles * 100
  if atrPercent < 2 then .low else if atrPercent < 5 then .medium else .high

/-- Source `calculateDynamicRiskLevels` — ATR-multiple stop-loss and tiered
take-profits, with the multipliers scaled by the volatility level
(high: SL ×0.8, TP ×1.2; low: SL ×1.2, TP ×0.9). -/
def calculateDynamicRiskLevels (candles : List Candle) (entryPrice : ℚ)
    (direction : TradeDirection) (atrMultiplierSL : ℚ := 2) (atrMultiplierTP : ℚ := 3) :
    RiskLevels :=
  let currentATR := dynCurrentATR candles entryPrice
  let volatilityLevel := dynVolatility candles entryPrice
  let adjustedSLMult := match volatilityLevel with
    | .high => atrMultiplierSL * (8/10)
    | .low => atrMultiplierSL * (12/10)
    | .medium => atrMultiplierSL
  let adjustedTPMult := match volatilityLevel with
    | .high => atrMultiplierTP * (12/10)
    | .low => atrMultiplierTP * (9/10)
    | .medium => atrMultiplierTP
  let stopLoss := match direction with
    | .long => entryPrice - currentATR * adjustedSLMult
    | .short => entryPrice + currentATR * adjustedSLMult
  let takeProfit1 := match direction with
    | .long => entryPrice + currentATR * adjustedTPMult * (1/2)
    | .short => entryPrice - currentATR * adjustedTPMult * (1/2)
  let takeProfit2 := match direction with
    | .long => entryPrice + currentATR * adjustedTPMult
    | .short => entryPrice - currentATR * adjustedTPMult
  let takeProfit3 := match direction with
    | .long => entryPrice + currentATR * adjustedTPMult * (3/2)
    | .short => entryPrice - currentATR * adjustedTPMult * (3/2)
  let stopLossPercent := |(entryPrice - stopLoss) / entryPrice| * 100
  let takeProfitPercent := |(takeProfit2 - entryPrice) / entryPrice| * 100
  { entryPrice := entryPrice, stopLoss := stopLoss,
    takeProfit1 := takeProfit1, takeProfit2 := takeProfit2, takeProfit3 := takeProfit3,
    stopLossPercent := stopLossPercent, takeProfitPercent := takeProfitPercent,
    riskRewardRatio := takeProfitPercent / stopLossPercent,
    atrValue := currentATR, volatilityLevel := volatilityLevel }

/-- Result shape of `getSupportResistanceLevels`. -/
structure SRLevels where
  supports : List ℚ
  resistances : List ℚ
  pivotPoint : ℚ
  nearestSupport : ℚ
  nearestResistance : ℚ
deriving Repr, DecidableEq

/-- Insert into a descending-sorted list. -/
def insertDesc (x : ℚ) : List ℚ → List ℚ
  | [] => [x]
  | y :: ys => if y ≤ x then x :: y :: ys else y :: insertDesc x ys

/-- Sort descending (`.sort((a, b) => b - a)` on a deduplicated list). -/
def sortDesc (l : List ℚ) : List ℚ := l.foldr insertDesc []

/-- Insert into an ascending-sorted list. -/
def insertAsc (x : ℚ) : List ℚ → List ℚ
  | [] => [x]
  | y :: ys => if x ≤ y then x :: y :: ys else y :: insertAsc x ys

/-- Sort ascending (`.sort((a, b) => a - b)` on a deduplicated list). -/
def sortAsc (l : List ℚ) : List ℚ := l.foldr insertAsc []

/-- Fuel-driven helper for `dedupQ` (structural recursion so that closed
instances compute in the kernel; the fuel `l.length` always suffices). -/
def dedupQAux : ℕ → List ℚ → List ℚ
  | 0, _ => []
  | _, [] => []
  | fuel + 1, x :: xs => x :: dedupQAux fuel (xs.filter (· ≠ x))

/-- Source `[...new Set(xs)]` — deduplicate, keeping first occurrences (the
result is sorted immediately afterwards, so only the underlying set
matters). -/
def dedupQ (l : List ℚ) : List ℚ := dedupQAux l.length l

/-- Source `getSupportResistanceLevels` — swing highs/lows over a symmetric 2-bar
window within the trailing `lookback` bars, deduplicated and sorted
(descending for supports, ascending for resistances), plus the nearest
levels to the current price with the JS `||` fallback chain. -/
def getSupportResistanceLevels (candles : List Candle) (lookback : ℕ) : SRLevels :=
  let recent := candles.drop (candles.length - lookback)
  let n := recent.length
  let swingIdx := (List.range n).filter fun i => 2 ≤ i ∧ i + 2 < n
  let swingHighs := swingIdx.filterMap fun i =>
    let c := recent.getD i default
    if c.high > (recent.getD (i-1) default).high ∧ c.high > (recent.getD (i-2) default).high
        ∧ c.high > (recent.getD (i+1) default).high ∧ c.high > (recent.getD (i+2) default).high
    then some c.high else none
  let swingLows := swingIdx.filterMap fun i =>
    let c := recent.getD i default
    if c.low < (recent.getD (i-1) default).low ∧ c.low < (recent.getD (i-2) default).low
        ∧ c.low < (recent.getD (i+1) default).low ∧ c.low < (recent.getD (i+2) default).low
    then some c.low else none
  let lastCandle := recent.getD (n - 1) default
  let pivotPoint := (lastCandle.high + lastCandle.low + lastCandle.close) / 3
  let supports := sortDesc (dedupQ swingLows)
  let resistances := sortAsc (dedupQ swingHighs)
  let currentPrice := lastCandle.close
  let nearestSupport :=
    jsOr (supports.find? fun s => s < currentPrice)
      (jsOr supports.head? (currentPrice * (95/100)))
  let nearestResistance :=
    jsOr (resistances.find? fun r => r > currentPrice)
      (jsOr resistances.getLast? (currentPrice * (105/100)))
  { supports := supports.take 5, resistances := resistances.take 5,
    pivotPoint := pivotPoint, nearestSupport := nearestSupport,
    nearestResistance := nearestResistance }

/-- Result shape of `getSmartRiskLevels` (`RiskLevels & { method; supportResistance }`). -/
structure SmartRiskLevels extends RiskLevels where
  method : String
  supportResistance : SRLevels
deriving Repr, DecidableEq

/-- Source `getSmartRiskLevels` — starts from the ATR-based levels, then replaces
only `stopLoss` (by the nearest structural level offset 0.5 %) and
`takeProfit2` (by the nearest resistance/support offset 0.5 %) when the
structural level is between the ATR level and the entry price; recomputes
the percentage and ratio fields from the replaced levels.  The other tiers
(`takeProfit1`, `takeProfit3`) are left at their ATR-based values. -/
def getSmartRiskLevels (candles : List Candle) (entryPrice : ℚ)
    (direction : TradeDirection) : SmartRiskLevels :=
  let atrLevels := calculateDynamicRiskLevels candles entryPrice direction
  let srLevels := getSupportResistanceLevels candles 100
  let useSupportSL := direction = TradeDirection.long
    ∧ srLevels.nearestSupport > atrLevels.stopLoss ∧ srLevels.nearestSupport < entryPrice
  let useResistanceSL := direction = TradeDirection.short
    ∧ srLevels.nearestResistance < atrLevels.stopLoss ∧ srLevels.nearestResistance > entryPrice
  let smartSL :=
    if useSupportSL then srLevels.nearestSupport * (995/1000)
    else if useResistanceSL then srLevels.nearestResistance * (1005/1000)
    else atrLevels.stopLoss
  let smartTP :=
    if direction = TradeDirection.long then
      if srLevels.nearestResistance < atrLevels.takeProfit2
          ∧ srLevels.nearestResistance > entryPrice
      then srLevels.nearestResistance * (995/1000) else atrLevels.takeProfit2
    else
      if srLevels.nearestSupport > atrLevels.takeProfit2
          ∧ srLevels.nearestSupport < entryPrice
      then srLevels.nearestSupport * (1005/1000) else atrLevels.takeProfit2
  let stopLossPercent := |(entryPrice - smartSL) / entryPrice| * 100
  let takeProfitPercent := |(smartTP - entryPrice) / entryPrice| * 100
  { toRiskLevels :=
      { atrLevels with
        stopLoss := smartSL, takeProfit2 := smartTP,
        stopLossPercent := stopLossPercent, takeProfitPercent := takeProfitPercent,
        riskRewardRatio := takeProfitPercent / stopLossPercent },
    method := if useSupportSL then "Support-Based"
      else if useResistanceSL then "Resistance-Based" else "ATR-Based",
    supportResistance := srLevels }

/-! ## Backtest engine (`backtestEngine.ts`) -/

/-- The six strategy identifiers. -/
inductive BacktestStrategy
  | rsiMeanReversion
  | macdCrossover
  | bollingerBreakout
  | goldenCross
  | trendFollowing
  | argusComposite
deriving Repr, DecidableEq

/-- Source `BacktestConfig` (the caller's partial config merged over
`DEFAULT_CONFIG` is modelled by passing the merged record). -/
structure BacktestConfig where
  strategy : BacktestStrategy
  initialCapital : ℚ
  positionSize : ℚ
  stopLoss : ℚ
  takeProfit : ℚ
  commission : ℚ
deriving Repr, DecidableEq

/-- Source `DEFAULT_CONFIG`. -/
def DEFAULT_CONFIG : BacktestConfig :=
  { strategy := .rsiMeanReversion, initialCapital := 10000,
    positionSize := 2/10, stopLoss := 5/100, takeProfit := 15/100,
    commission := 1/1000 }

/-- An open or completed backtest trade (numeric formatting inside reason
strings is abstracted; no claim reads them). -/
structure BacktestTrade where
  id : String
  entryDate : ℕ
  exitDate : Option ℕ
  entryPrice : ℚ
  exitPrice : Option ℚ
  quantity : ℚ
  pnl : Option ℚ
  pnlPercent : Option ℚ
  reason : String
  exitReason : Option String
deriving Repr, DecidableEq

/-- The pre-computed indicator table of `calculateIndicators`. -/
structure BacktestIndicators where
  rsi : List (Option ℚ)
  macd : MacdResult
  bollinger : BollResult
  sma20 : List (Option ℚ)
  sma50 : List (Option ℚ)
  sma200 : List (Option ℚ)
  ema12 : List (Option ℚ)
  ema26 : List (Option ℚ)
deriving Repr, DecidableEq

/-- Source `calculateIndicators`. -/
def calculateIndicators (candles : List Candle) : BacktestIndicators :=
  let prices := candles.map (·.close)
  { rsi := calculateRSI prices 14,
    macd := calculateMACD prices 12 26 9,
    bollinger := calculateBollingerBands prices 20 2,
    sma20 := calculateSMA prices 20,
    sma50 := calculateSMA prices 50,
    sma200 := calculateSMA prices 200,
    ema12 := calculateEMA prices 12,
    ema26 := calculateEMA prices 26 }

/-- Source `indicators.macd.<name>[index]`: the property read may yield
`undefined` (a key the object lacks), and indexing `undefined` throws a
`TypeError` — the `Except.error` case. -/
def jsIndex (arr : Option (List (Option ℚ))) (i : ℕ) : Except String (Option ℚ) :=
  match arr with
  | none => .error "TypeError: Cannot read properties of undefined"
  | some l => .ok (l.getD i none)

/-- Source `generateSignal` — per-strategy signal at `index`.  The
`macdCrossover` case reads the properties `macdLine` / `signalLine` of the
MACD result, which `calculateMACD` does not define (its fields are `macd`
and `signal`), so that case faults. -/
def generateSignal (index : ℕ) (candles : List Candle)
    (indicators : BacktestIndicators) (strategy : BacktestStrategy) :
    Except String Dir :=
  let price := (candles.getD index default).close
  match strategy with
  | .rsiMeanReversion =>
    .ok <| match indicators.rsi.getD index none, indicators.rsi.getD (index - 1) none with
      | some rsi, some prevRsi =>
        if rsi < 30 ∧ prevRsi ≤ rsi then .buy
        else if rsi > 70 ∧ prevRsi ≥ rsi then .sell
        else .hold
      | _, _ => .hold
  | .macdCrossover => do
    let macdLine ← jsIndex (macdField indicators.macd "macdLine") index
    let signalLine ← jsIndex (macdField indicators.macd "signalLine") index
    let prevMacd ← jsIndex (macdField indicators.macd "macdLine") (index - 1)
    let prevSignal ← jsIndex (macdField indicators.macd "signalLine") (index - 1)
    .ok <| match macdLine, signalLine, prevMacd, prevSignal with
      | some m, some s, some pm, some ps =>
        if pm ≤ ps ∧ m > s then .buy
        else if pm ≥ ps ∧ m < s then .sell
        else .hold
      | _, _, _, _ => .hold
  | .bollingerBreakout =>
    .ok <| match indicators.bollinger.upper.getD index none,
        indicators.bollinger.lower.getD index none with
      | some upper, some lower =>
        if price < lower then .buy else if price > upper then .sell else .hold
      | _, _ => .hold
  | .goldenCross =>
    .ok <| match indicators.sma50.getD index none, indicators.sma200.getD index none,
        indicators.sma50.getD (index - 1) none, indicators.sma200.getD (index - 1) none with
      | some s50, some s200, some p50, some p200 =>
        if p50 ≤ p200 ∧ s50 > s200 then .buy
        else if p50 ≥ p200 ∧ s50 < s200 then .sell
        else .hold
      | _, _, _, _ => .hold
  | .trendFollowing =>
    .ok <| match indicators.sma20.getD index none, indicators.sma50.getD index none,
        indicators.rsi.getD index none with
      | some s20, some s50, some rsi =>
        if price > s20 ∧ s20 > s50 ∧ rsi > 50 ∧ rsi < 70 then .buy
        else if price < s20 ∧ s20 < s50 ∧ rsi < 50 then .sell
        else .hold
      | _, _, _ => .hold
  | .argusComposite =>
    let score : ℤ :=
      (match indicators.rsi.getD index none with
        | some rsi =>
          if rsi < 30 then 2 else if rsi < 40 then 1
          else if rsi > 70 then -2 else if rsi > 60 then -1 else 0
        | none => 0)
      + (match indicators.macd.histogram.getD index none with
        | some h => if h > 0 then 1 else -1
        | none => 0)
      + (match indicators.sma20.getD index none with
        | some s => if price > s then 1 else -1
        | none => 0)
      + (match indicators.bollinger.lower.getD index none with
        | some lower => if price < lower then 2 else 0
        | none => 0)
      + (match indicators.bollinger.upper.getD index none with
        | some upper => if price > upper then -2 else 0
        | none => 0)
    .ok <| if score ≥ 3 then .buy else if score ≤ -3 then .sell else .hold

/-- The running state of the backtest loop. -/
structure BTState where
  capital : ℚ
  position : Option BacktestTrade
  trades : List BacktestTrade
  equityCurve : List (ℕ × ℚ)
  signalLog : List (ℕ × Dir × ℚ × String)
  peakEquity : ℚ
  maxDrawdown : ℚ
deriving Repr, DecidableEq

/-- One iteration of the backtest loop at bar `i`: mark equity and
drawdown, evaluate the signal, then open (flat + buy) or close (sell
signal / stop-loss / take-profit) with commission. -/
def btStep (candles : List Candle) (indicators : BacktestIndicators)
    (cfg : BacktestConfig) (st : BTState) (i : ℕ) : Except String BTState :=
  let candle := candles.getD i default
  let price := candle.close
  let currentEquity := match st.position with
    | some pos => st.capital + pos.quantity * price - pos.quantity * pos.entryPrice
    | none => st.capital
  let equityCurve := st.equityCurve ++ [(candle.date, currentEquity)]
  let peakEquity := if currentEquity > st.peakEquity then currentEquity else st.peakEquity
  let drawdown := (peakEquity - currentEquity) / peakEquity
  let maxDrawdown := if drawdown > st.maxDrawdown then drawdown else st.maxDrawdown
  do
    let signal ← generateSignal i candles indicators cfg.strategy
    match st.position, signal with
    | none, .buy =>
      let positionCapital := st.capital * cfg.positionSize
      let quantity := positionCapital / price
      let commission := positionCapital * cfg.commission
      let pos : BacktestTrade :=
        { id := "trade", entryDate := candle.date, exitDate := none,
          entryPrice := price, exitPrice := none, quantity := quantity,
          pnl := none, pnlPercent := none, reason := "entry", exitReason := none }
      .ok { st with
              capital := st.capital - commission, position := some pos,
              equityCurve := equityCurve, peakEquity := peakEquity,
              maxDrawdown := maxDrawdown,
              signalLog := st.signalLog ++ [(candle.date, .buy, price, pos.reason)] }
    | some pos, sig =>
      let pnlPercent := (price - pos.entryPrice) / pos.entryPrice
      let exitReason : Option String :=
        if sig = Dir.sell then some "signal exit"
        else if pnlPercent ≤ -cfg.stopLoss then some "Stop Loss"
        else if pnlPercent ≥ cfg.takeProfit then some "Take Profit"
        else none
      match exitReason with
      | some reason =>
        let exitValue := pos.quantity * price
        let commission := exitValue * cfg.commission
        let pnl := (price - pos.entryPrice) * pos.quantity - commission
        let completed : BacktestTrade :=
          { pos with
              exitDate := some candle.date, exitPrice := some price,
              pnl := some pnl, pnlPercent := some pnlPercent,
              exitReason := some reason }
        .ok { st with
          capital := st.capital + pos.quantity * pos.entryPrice + pnl,
          position := none, trades := st.trades ++ [completed],
          equityCurve := equityCurve, peakEquity := peakEquity,
          maxDrawdown := maxDrawdown,
          signalLog := st.signalLog ++ [(candle.date, .sell, price, reason)] }
      | none =>
        .ok { st with
                equityCurve := equityCurve, peakEquity := peakEquity,
                maxDrawdown := maxDrawdown }
    | none, _ =>
      .ok { st with
              equityCurve := equityCurve, peakEquity := peakEquity,
              maxDrawdown := maxDrawdown }

/-- Source `BacktestResult` (dates as timestamps; reason strings abstracted). -/
structure BacktestResult where
  strategy : BacktestStrategy
  symbol : String
  startDate : ℕ
  endDate : ℕ
  initialCapital : ℚ
  finalCapital : ℚ
  totalReturn : ℚ
  totalReturnPercent : ℚ
  maxDrawdown : ℚ
  maxDrawdownPercent : ℚ
  winRate : ℚ
  totalTrades : ℕ
  winningTrades : ℕ
  losingTrades : ℕ
  avgWin : ℚ
  avgLoss : ℚ
  profitFactorNum : ℚ
  profitFactorInf : Bool
  sharpeRatio : ℚ
  trades : List BacktestTrade
  equityCurve : List (ℕ × ℚ)
deriving Repr, DecidableEq

/-- Source `createEmptyResult` — the explicit empty shape for < 50 candles. -/
def createEmptyResult (symbol : String) (cfg : BacktestConfig) : BacktestResult :=
  { strategy := cfg.strategy, symbol := symbol, startDate := 0, endDate := 0,
    initialCapital := cfg.initialCapital, finalCapital := cfg.initialCapital,
    totalReturn := 0, totalReturnPercent := 0, maxDrawdown := 0,
    maxDrawdownPercent := 0, winRate := 0, totalTrades := 0, winningTrades := 0,
    losingTrades := 0, avgWin := 0, avgLoss := 0, profitFactorNum := 0,
    profitFactorInf := false, sharpeRatio := 0, trades := [], equityCurve := [] }

/-- Source `runBacktest` — the bar-50-onward loop, the forced close of any
position still open at the last bar, and the summary statistics
(`profitFactor = Infinity` is carried as the `profitFactorInf` flag since
`ℚ` has no infinity; the Sharpe ratio's `Math.sqrt(252)` is `ratSqrt`-
modelled and no claim reads it). -/
def runBacktest (symbol : String) (candles : List Candle) (cfg : BacktestConfig) :
    Except String BacktestResult :=
  if candles.length < 50 then .ok (createEmptyResult symbol cfg)
  else do
    let indicators := calculateIndicators candles
    let st0 : BTState :=
      { capital := cfg.initialCapital, position := none,
        trades := [], equityCurve := [], signalLog := [],
        peakEquity := cfg.initialCapital, maxDrawdown := 0 }
    let st ← (List.range' 50 (candles.length - 50)).foldlM
      (btStep candles indicators cfg) st0
    let final : BTState :=
      match st.position with
      | some pos =>
        let lastPrice := (candles.getD (candles.length - 1) default).close
        let pnl := (lastPrice - pos.entryPrice) * pos.quantity
        { st with
          capital := st.capital + pos.quantity * pos.entryPrice + pnl,
          position := none,
          trades := st.trades ++ [{ pos with
            exitDate := some (candles.getD (candles.length - 1) default).date,
            exitPrice := some lastPrice, pnl := some pnl,
            pnlPercent := some ((lastPrice - pos.entryPrice) / pos.entryPrice),
            exitReason := some "End of Backtest" }] }
      | none => st
    let winningTrades := final.trades.filter fun t => (t.pnl.getD 0) > 0
    let losingTrades := final.trades.filter fun t => (t.pnl.getD 0) ≤ 0
    let avgWin := if winningTrades.length > 0 then
      (winningTrades.map fun t => t.pnl.getD 0).sum / (winningTrades.length : ℚ) else 0
    let avgLoss := if losingTrades.length > 0 then
      |(losingTrades.map fun t => t.pnl.getD 0).sum / (losingTrades.length : ℚ)| else 0
    let grossProfit := (winningTrades.map fun t => t.pnl.getD 0).sum
    let grossLoss := |(losingTrades.map fun t => t.pnl.getD 0).sum|
    let returns := (List.range final.equityCurve.length).map fun i =>
      if i > 0 then
        ((final.equityCurve.getD i (0, 0)).2 - (final.equityCurve.getD (i-1) (0, 0)).2)
          / (final.equityCurve.getD (i-1) (0, 0)).2
      else 0
    let avgReturn := returns.sum / (returns.length : ℚ)
    let stdDev := ratSqrt ((returns.map fun r => (r - avgReturn) ^ 2).sum / (returns.length : ℚ))
    .ok {
      strategy := cfg.strategy, symbol := symbol,
      startDate := (candles.getD 50 default).date,
      endDate := (candles.getD (candles.length - 1) default).date,
      initialCapital := cfg.initialCapital, finalCapital := final.capital,
      totalReturn := final.capital - cfg.initialCapital,
      totalReturnPercent := (final.capital - cfg.initialCapital) / cfg.initialCapital * 100,
      maxDrawdown := final.maxDrawdown * cfg.initialCapital,
      maxDrawdownPercent := final.maxDrawdown * 100,
      winRate := if final.trades.length > 0 then
        ((winningTrades.length : ℚ) / (final.trades.length : ℚ)) * 100 else 0,
      totalTrades := final.trades.length,
      winningTrades := winningTrades.length, losingTrades := losingTrades.length,
      avgWin := avgWin, avgLoss := avgLoss,
      profitFactorNum := if grossLoss > 0 then grossProfit / grossLoss else 0,
      profitFactorInf := grossLoss = 0 ∧ grossProfit > 0,
      sharpeRatio := if stdDev > 0 then avgReturn * ratSqrt 252 / stdDev else 0,
      trades := final.trades, equityCurve := final.equityCurve }

/-! ## Paper trading portfolio (`paperTradingService.ts`) -/

/-- Trade side. -/
inductive TradeSide
  | buy
  | sell
deriving Repr, DecidableEq

/-- Trade status. -/
inductive TradeStatus
  | tOpen
  | tClosed
deriving Repr, DecidableEq

/-- A position held in the portfolio. -/
structure Position where
  quantity : ℚ
  avgCost : ℚ
  stopLoss : Option ℚ := none
  takeProfit : Option ℚ := none
deriving Repr, DecidableEq

/-- One `PaperTrade` record (timestamps and the id abstracted away). -/
structure PaperTrade where
  symbol : String
  side : TradeSide
  quantity : ℚ
  entryPrice : ℚ
  exitPrice : Option ℚ := none
  pnl : Option ℚ := none
  pnlPercent : Option ℚ := none
  status : TradeStatus
  reason : String
  confidence : ℚ
deriving Repr, DecidableEq

/-- The portfolio.  The `positions` Map is modelled as an association list
whose `set` removes any stale entry for the key before appending; the JS
Map preserves insertion order instead, but only the key→value mapping is
ever observed (lookups, and sums over the values, which are
order-independent in exact arithmetic). -/
structure PaperPortfolio where
  balance : ℚ
  initialBalance : ℚ
  positions : List (String × Position)
  trades : List PaperTrade
deriving Repr, DecidableEq

/-- Source `positions.set(symbol, v)`. -/
def posSet (l : List (String × Position)) (k : String) (v : Position) :
    List (String × Position) :=
  (l.filter fun e => e.1 ≠ k) ++ [(k, v)]

/-- Source `positions.delete(symbol)`. -/
def posDelete (l : List (String × Position)) (k : String) :
    List (String × Position) :=
  l.filter fun e => e.1 ≠ k

/-- Cost-basis sum over an association list. -/
def posCostSum (l : List (String × Position)) : ℚ :=
  (l.map fun e => e.2.quantity * e.2.avgCost).sum

/-- The effective sell quantity: `quantity || position.quantity`. -/
def sellQtyOf (position : Position) (q : Option ℚ) : ℚ :=
  match q with
  | none => position.quantity
  | some qq => if qq = 0 then position.quantity else qq

/-- Source `initializePaperPortfolio`. -/
def initializePaperPortfolio (initialBalance : ℚ) : PaperPortfolio :=
  { balance := initialBalance, initialBalance := initialBalance,
    positions := [], trades := [] }

/-- Source `paperBuy` — fails (no trade, portfolio unchanged) when a position in
the symbol already exists or the balance is insufficient; otherwise debits
the notional, installs the position and appends an open trade record.  The
ticker price is passed in (the source fetches it; a failed fetch returns
null and leaves the portfolio unchanged, like the failure cases here).
The `existing` merge branch below mirrors lines 318–325 of the source; it
is unreachable because of the duplicate-position guard above it. -/
def paperBuy (p : PaperPortfolio) (symbol : String) (amountUSD : ℚ)
    (price : ℚ) (reason : String) (confidence : ℚ) :
    PaperPortfolio × Option PaperTrade :=
  if (p.positions.lookup symbol).isSome then (p, none)
  else if p.balance < amountUSD then (p, none)
  else
    let quantity := amountUSD / price
    let positions :=
      match p.positions.lookup symbol with
      | some existing =>
        posSet p.positions symbol
          { quantity := existing.quantity + quantity,
            avgCost := (existing.quantity * existing.avgCost + amountUSD)
              / (existing.quantity + quantity) }
      | none => posSet p.positions symbol { quantity := quantity, avgCost := price }
    let trade : PaperTrade :=
      { symbol := symbol, side := .buy, quantity := quantity, entryPrice := price,
        status := .tOpen, reason := reason, confidence := confidence }
    ({ p with
          balance := p.balance - amountUSD, positions := positions,
          trades := p.trades ++ [trade] }, some trade)

/-- Source `paperSell` — fails when no position exists or the requested quantity
exceeds the held quantity.  `quantity || position.quantity`: an omitted
quantity and an explicit 0 both sell the whole position.  A remainder of
at most 0.000001 units is treated as dust: the position entry is deleted
outright. -/
def paperSell (p : PaperPortfolio) (symbol : String) (quantity : Option ℚ)
    (price : ℚ) (reason : String) :
    PaperPortfolio × Option PaperTrade :=
  match p.positions.lookup symbol with
  | none => (p, none)
  | some position =>
    let sellQty := match quantity with
      | none => position.quantity
      | some q => if q = 0 then position.quantity else q
    if position.quantity < sellQty then (p, none)
    else
      let proceeds := sellQty * price
      let cost := sellQty * position.avgCost
      let pnl := proceeds - cost
      let remainingQty := position.quantity - sellQty
      let positions :=
        if remainingQty > 1/1000000 then
          posSet p.positions symbol { position with quantity := remainingQty }
        else posDelete p.positions symbol
      let trade : PaperTrade :=
        { symbol := symbol, side := .sell, quantity := sellQty,
          entryPrice := position.avgCost, exitPrice := some price,
          pnl := some pnl, pnlPercent := some (pnl / cost * 100),
          status := .tClosed, reason := reason, confidence := 0 }
      ({ p with
            balance := p.balance + proceeds, positions := positions,
            trades := p.trades ++ [trade] }, some trade)

/-- The realized PnL of the closed trades (`t.pnl || 0` summed over
`status === 'closed'`), as `repairPortfolioBalance` computes it. -/
def closedTradesPnl (p : PaperPortfolio) : ℚ :=
  ((p.trades.filter fun t => t.status = TradeStatus.tClosed).map
    fun t => t.pnl.getD 0).sum

/-- The cost basis of the open positions, as `repairPortfolioBalance`
computes it. -/
def openPositionsCost (p : PaperPortfolio) : ℚ :=
  (p.positions.map fun e => e.2.quantity * e.2.avgCost).sum

/-- Source `expectedBalance = initialBalance + closedTradesPnl - openPositionsCost`. -/
def expectedBalance (p : PaperPortfolio) : ℚ :=
  p.initialBalance + closedTradesPnl p - openPositionsCost p

/-- Source `repairPortfolioBalance` — overwrites the stored balance with the
recomputed one when they differ by more than $1. -/
def repairPortfolioBalance (p : PaperPortfolio) : PaperPortfolio :=
  if 1 < |p.balance - expectedBalance p| then { p with balance := expectedBalance p }
  else p

/-- One manual portfolio operation, with the fetched ticker price inlined. -/
inductive PaperOp
  | buy (symbol : String) (amountUSD price : ℚ)
  | sell (symbol : String) (quantity : Option ℚ) (price : ℚ)
deriving Repr, DecidableEq

/-- Apply one operation (failed operations leave the portfolio unchanged,
as in the source, where they return null before any mutation). -/
def applyOp (p : PaperPortfolio) : PaperOp → PaperPortfolio
  | .buy s a pr => (paperBuy p s a pr "op" 0).1
  | .sell s q pr => (paperSell p s q pr "op").1

/-- Apply a sequence of operations. -/
def applyOps (p : PaperPortfolio) (ops : List PaperOp) : PaperPortfolio :=
  ops.foldl applyOp p

/-- The side conditions under which one operation keeps the balance
reconciliation exact: buys need a nonzero price (a zero price would make
the quantity `Infinity` in JS), and sells must not trip the dust-deletion
branch (a successful sell must leave remainder 0 or more than 0.000001
units — otherwise the deleted remainder's cost basis is dropped from the
books with no offsetting entry). -/
def opOk (p : PaperPortfolio) : PaperOp → Prop
  | .buy _ _ price => price ≠ 0
  | .sell s q _ =>
    match p.positions.lookup s with
    | none => True
    | some position =>
      let sellQty := match q with
        | none => position.quantity
        | some qq => if qq = 0 then position.quantity else qq
      sellQty ≤ position.quantity →
        (position.quantity - sellQty = 0 ∨ 1/1000000 < position.quantity - sellQty)

/-- Source `opOk` along a whole trace. -/
def traceOk (p : PaperPortfolio) : List PaperOp → Prop
  | [] => True
  | op :: ops => opOk p op ∧ traceOk (applyOp p op) ops

/-- Source `opOk` is decidable (used to discharge concrete traces by computation). -/
instance instDecidableOpOk (p : PaperPortfolio) (op : PaperOp) :
    Decidable (opOk p op) :=
  match op with
  | .buy _ _ price => inferInstanceAs (Decidable (price ≠ 0))
  | .sell s q pr =>
    match h : p.positions.lookup s with
    | none => isTrue (show opOk p (.sell s q pr) by simp only [opOk, h])
    | some position =>
      decidable_of_iff (sellQtyOf position q ≤ position.quantity →
        (position.quantity - sellQtyOf position q = 0
          ∨ 1/1000000 < position.quantity - sellQtyOf position q))
        (by simp only [opOk, h]; exact Iff.rfl)

/-- Source `traceOk` is decidable. -/
instance instDecidableTraceOk (p : PaperPortfolio) (ops : List PaperOp) :
    Decidable (traceOk p ops) :=
  match ops with
  | [] => isTrue trivial
  | op :: rest =>
    have : Decidable (traceOk (applyOp p op) rest) := instDecidableTraceOk _ rest
    inferInstanceAs (Decidable (_ ∧ _))

/-! ## Concrete inputs used by witnesses and counterexamples -/

/-- A flat unit candle. -/
def flatCandle : Candle :=
  { date := 0, openPrice := 1, high := 1, low := 1, close := 1, volume := 1 }

/-- A flat (zero-variance) candle series of length `n`. -/
def flatCandles (n : ℕ) : List Candle := List.replicate n flatCandle

/-- The 60-bar series of the smart-risk-level counterexample: constant
price 100 with a single swing high of 101 at index 57. -/
def c4spike : Candle :=
  { date := 0, openPrice := 100, high := 101, low := 100, close := 100, volume := 1 }

/-- Base bar of the counterexample series. -/
def c4base : Candle :=
  { date := 0, openPrice := 100, high := 100, low := 100, close := 100, volume := 1 }

/-- See `c4spike`. -/
def c4candles : List Candle :=
  (List.range 60).map fun i => if i = 57 then c4spike else c4base

/-- A 20-bar low-volatility series: close 100, range 1 (so ATR = 1 and
ATR percent = 1 < 2). -/
def c7candles : List Candle :=
  List.replicate 20
    { date := 0, openPrice := 100, high := 201/2, low := 199/2, close := 100,
      volume := 1 }

/-- The C3 scenario start: a fresh $10,000 portfolio. -/
def c3p0 : PaperPortfolio := initializePaperPortfolio 10000

/-- The C3 scenario after the first $1000 buy at $50,000. -/
def c3p1 : PaperPortfolio := (paperBuy c3p0 "BTCUSDT" 1000 50000 "manual" 50).1

/-- The C3 scenario's second $1000 buy, at $25,000. -/
def c3step2 : PaperPortfolio × Option PaperTrade :=
  paperBuy c3p1 "BTCUSDT" 1000 25000 "manual" 50

/-- The C5 dust counterexample trace: buy $1000 at price 10⁹ (quantity
10⁻⁶), then sell 9·10⁻⁷ of it — the remainder 10⁻⁷ is deleted as dust. -/
def c5ops : List PaperOp :=
  [.buy "XUSDT" 1000 1000000000, .sell "XUSDT" (some (9/10000000)) 1000000000]

/-- The portfolio after the C5 dust trace. -/
def c5end : PaperPortfolio := applyOps (initializePaperPortfolio 1000) c5ops

/-- A dust-free trace used by the C5 witness. -/
def c5okOps : List PaperOp :=
  [.buy "XUSDT" 1000 50000, .sell "XUSDT" (some (1/100)) 60000]

/-- A corrupted portfolio (balance drifted by $50) used by the C5 witness. -/
def c5corrupt : PaperPortfolio :=
  { balance := 1050, initialBalance := 1000, positions := [], trades := [] }

/-- The C9 portfolio: one open position of 2 XUSDT at $30. -/
def c9p : PaperPortfolio :=
  { balance := 940, initialBalance := 1000,
    positions := [("XUSDT", { quantity := 2, avgCost := 30 })],
    trades := [] }

/-! ## C3 — weighted-average-cost scenario -/

/-- C3 counterexample: after a successful $1000 buy at $50,000, the second
$1000 buy at $25,000 is rejected by the duplicate-position guard (it
returns no trade), so the portfolio does NOT hold the claimed position of
quantity 0.06 at average cost $33,333.33… = 100000/3. -/
theorem c3_second_buy_rejected :
    c3step2.2 = none
  ∧ c3step2.1.positions.lookup "BTCUSDT" ≠
      some { quantity := 6/100, avgCost := 100000/3 } := by
  constructor <;> decide

/-- C3 amended: the first buy opens a position of 0.02 BTC at cost
$50,000; the second buy returns no trade and leaves that position (and the
balance) unchanged, because `paperBuy` refuses any symbol already held.
The weighted-average-cost merge in the source is dead code behind that
guard. -/
theorem c3_amended_duplicate_guard :
    c3p1.positions.lookup "BTCUSDT" = some { quantity := 2/100, avgCost := 50000 }
  ∧ c3step2.2 = none
  ∧ c3step2.1 = c3p1 := by
  refine ⟨by decide, by decide, by decide⟩

/-! ## C9 — explicit zero sell quantity -/

/-- C9: selling with an explicit quantity of 0 behaves exactly like an
omitted quantity: the whole position is sold, the position entry is
removed, and one closed trade for the full held quantity is appended. -/
theorem paperSell_zero_quantity (p : PaperPortfolio) (symbol : String)
    (price : ℚ) (reason : String) (position : Position)
    (hpos : p.positions.lookup symbol = some position) :
    paperSell p symbol (some 0) price reason = paperSell p symbol none price reason
  ∧ (paperSell p symbol (some 0) price reason).2 =
      some { symbol := symbol, side := .sell, quantity := position.quantity,
             entryPrice := position.avgCost, exitPrice := some price,
             pnl := some (position.quantity * price - position.quantity * position.avgCost),
             pnlPercent := some ((position.quantity * price - position.quantity * position.avgCost)
               / (position.quantity * position.avgCost) * 100),
             status := .tClosed, reason := reason, confidence := 0 }
  ∧ (paperSell p symbol (some 0) price reason).1.positions.lookup symbol = none
  ∧ (paperSell p symbol (some 0) price reason).1.trades.length = p.trades.length + 1 := by
  have hzero : ∀ q : Option ℚ, q = some 0 ∨ q = none →
      paperSell p symbol q price reason =
        ({ p with
             balance := p.balance + position.quantity * price,
             positions := posDelete p.positions symbol,
             trades := p.trades ++
               [{ symbol := symbol, side := .sell, quantity := position.quantity,
                  entryPrice := position.avgCost, exitPrice := some price,
                  pnl := some (position.quantity * price - position.quantity * position.avgCost),
                  pnlPercent := some ((position.quantity * price
                    - position.quantity * position.avgCost)
                    / (position.quantity * position.avgCost) * 100),
                  status := .tClosed, reason := reason, confidence := 0 }] },
         some { symbol := symbol, side := .sell, quantity := position.quantity,
                entryPrice := position.avgCost, exitPrice := some price,
                pnl := some (position.quantity * price - position.quantity * position.avgCost),
                pnlPercent := some ((position.quantity * price
                  - position.quantity * position.avgCost)
                  / (position.quantity * position.avgCost) * 100),
                status := .tClosed, reason := reason, confidence := 0 }) := by
    intro q hq
    rcases hq with rfl | rfl <;>
      simp [paperSell, hpos, sub_self]
  have h0 := hzero (some 0) (Or.inl rfl)
  have hn := hzero none (Or.inr rfl)
  refine ⟨h0.trans hn.symm, (congrArg Prod.snd h0).trans rfl, ?_, ?_⟩
  · simp only [h0]
    unfold posDelete
    rw [List.lookup_eq_none_iff]
    intro v hv
    have hmem := List.of_mem_filter hv
    have hne : v.1 ≠ symbol := of_decide_eq_true hmem
    exact bne_iff_ne.mpr (Ne.symm hne)
  · simp [h0]

/-- Closed witness for the zero-quantity sell theorem at the concrete
portfolio `c9p`. -/
theorem paperSell_zero_quantity_witness :
    paperSell c9p "XUSDT" (some 0) 40 "exit" = paperSell c9p "XUSDT" none 40 "exit"
  ∧ (paperSell c9p "XUSDT" (some 0) 40 "exit").1.positions.lookup "XUSDT" = none
  ∧ (paperSell c9p "XUSDT" (some 0) 40 "exit").1.trades.length = 1 := by
  have h := paperSell_zero_quantity c9p "XUSDT" 40 "exit"
    { quantity := 2, avgCost := 30 } (by decide)
  exact ⟨h.1, h.2.2.1, h.2.2.2⟩

/-! ## C5 — portfolio balance reconciliation -/

/-- C5 counterexample: a sequence of two successful operations (both
return trades) after which the stored balance differs from
`initialBalance + Σ closed pnl - Σ open cost` by $100 — far beyond any
floating-point tolerance and beyond the $1 repair threshold.  The sell
leaves a 10⁻⁷-unit remainder, which the dust branch deletes together with
its $100 cost basis. -/
theorem balance_invariant_dust_counterexample :
    (paperBuy (initializePaperPortfolio 1000) "XUSDT" 1000 1000000000 "op" 0).2.isSome
  ∧ (paperSell (applyOp (initializePaperPortfolio 1000) (.buy "XUSDT" 1000 1000000000))
      "XUSDT" (some (9/10000000)) 1000000000 "op").2.isSome
  ∧ c5end.balance ≠ expectedBalance c5end
  ∧ expectedBalance c5end - c5end.balance = 100 := by
  refine ⟨by decide, by decide, by decide, by decide⟩

theorem posCostSum_posSet (l : List (String × Position)) (k : String) (v : Position) :
    posCostSum (posSet l k v) = posCostSum (posDelete l k) + v.quantity * v.avgCost := by
  simp [posCostSum, posSet, posDelete]

theorem posDelete_of_lookup_none (l : List (String × Position)) (k : String)
    (h : l.lookup k = none) : posDelete l k = l := by
  induction l with
  | nil => rfl
  | cons e rest ih =>
    rw [List.lookup_cons] at h
    cases hbe : (k == e.1) with
    | true => rw [hbe] at h; simp at h
    | false =>
      rw [hbe] at h
      simp only at h
      have hne : e.1 ≠ k := by
        intro hg
        rw [hg, beq_self_eq_true] at hbe
        cases hbe
      simp only [posDelete, List.filter_cons]
      rw [if_pos (by simpa using hne)]
      have := ih h
      simp only [posDelete] at this
      rw [this]

theorem posCostSum_split (l : List (String × Position)) (k : String) (pos : Position)
    (hnd : (l.map Prod.fst).Nodup) (h : l.lookup k = some pos) :
    posCostSum l = posCostSum (posDelete l k) + pos.quantity * pos.avgCost := by
  induction l with
  | nil => cases h
  | cons e rest ih =>
    rw [List.lookup_cons] at h
    simp only [List.map_cons, List.nodup_cons] at hnd
    cases hbe : (k == e.1) with
    | true =>
      rw [hbe] at h
      simp only at h
      have hke : k = e.1 := by simpa using hbe
      have hvpos : e.2 = pos := by injection h
      have hrest : rest.lookup k = none := by
        rw [List.lookup_eq_none_iff]
        intro v hv
        refine bne_iff_ne.mpr ?_
        intro hkv
        have hmem : v.1 ∈ rest.map Prod.fst := List.mem_map_of_mem Prod.fst hv
        rw [← hkv, hke] at hmem
        exact hnd.1 hmem
      have hdel : posDelete rest k = rest := posDelete_of_lookup_none rest k hrest
      simp only [posDelete, List.filter_cons]
      rw [if_neg (by simp [hke])]
      simp only [posDelete] at hdel
      rw [hdel]
      simp only [posCostSum, List.map_cons, List.sum_cons, hvpos]
      ring
    | false =>
      rw [hbe] at h
      simp only at h
      have hne : e.1 ≠ k := by
        intro hg
        rw [hg, beq_self_eq_true] at hbe
        cases hbe
      simp only [posDelete, List.filter_cons]
      rw [if_pos (by simpa using hne)]
      have := ih hnd.2 h
      simp only [posDelete] at this
      simp only [posCostSum, List.map_cons, List.sum_cons] at this ⊢
      rw [this]
      ring

theorem posSet_keys_nodup (l : List (String × Position)) (k : String) (v : Position)
    (hnd : (l.map Prod.fst).Nodup) : ((posSet l k v).map Prod.fst).Nodup := by
  simp only [posSet, List.map_append]
  rw [List.nodup_append]
  refine ⟨(hnd.sublist (List.Sublist.map Prod.fst (List.filter_sublist l))), by simp, ?_⟩
  intro a ha
  simp only [List.mem_map] at ha
  obtain ⟨e, he, rfl⟩ := ha
  have hmem := List.of_mem_filter he
  have := of_decide_eq_true hmem
  simpa using this

theorem posDelete_keys_nodup (l : List (String × Position)) (k : String)
    (hnd : (l.map Prod.fst).Nodup) : ((posDelete l k).map Prod.fst).Nodup :=
  hnd.sublist (List.Sublist.map Prod.fst (List.filter_sublist l))

theorem openPositionsCost_eq (p : PaperPortfolio) :
    openPositionsCost p = posCostSum p.positions := rfl

theorem closedTradesPnl_append_open (p : PaperPortfolio) (t : PaperTrade)
    (ht : t.status = .tOpen) :
    ((((p.trades ++ [t]).filter fun tr => tr.status = TradeStatus.tClosed).map
      fun tr => tr.pnl.getD 0)).sum = closedTradesPnl p := by
  simp [closedTradesPnl, List.filter_append, ht]

theorem closedTradesPnl_append_closed (p : PaperPortfolio) (t : PaperTrade)
    (ht : t.status = .tClosed) :
    ((((p.trades ++ [t]).filter fun tr => tr.status = TradeStatus.tClosed).map
      fun tr => tr.pnl.getD 0)).sum = closedTradesPnl p + t.pnl.getD 0 := by
  simp [closedTradesPnl, List.filter_append, ht]

/-- A failed buy (duplicate position) leaves the portfolio unchanged. -/
theorem paperBuy_dup (p : PaperPortfolio) (s : String) (a pr : ℚ)
    (r : String) (c : ℚ) (h1 : (p.positions.lookup s).isSome) :
    paperBuy p s a pr r c = (p, none) := by
  unfold paperBuy
  rw [if_pos h1]

/-- A failed buy (insufficient balance) leaves the portfolio unchanged. -/
theorem paperBuy_poor (p : PaperPortfolio) (s : String) (a pr : ℚ)
    (r : String) (c : ℚ) (h1 : p.positions.lookup s = none)
    (h2 : p.balance < a) :
    paperBuy p s a pr r c = (p, none) := by
  unfold paperBuy
  rw [h1]
  rw [if_neg (by simp), if_pos h2]

/-- The successful-buy shape. -/
theorem paperBuy_success (p : PaperPortfolio) (s : String) (a pr : ℚ)
    (r : String) (c : ℚ) (h1 : p.positions.lookup s = none)
    (h2 : ¬ p.balance < a) :
    paperBuy p s a pr r c =
      ({ p with
           balance := p.balance - a,
           positions := posSet p.positions s { quantity := a / pr, avgCost := pr },
           trades := p.trades ++
             [{ symbol := s, side := .buy, quantity := a / pr, entryPrice := pr,
                status := .tOpen, reason := r, confidence := c }] },
       some { symbol := s, side := .buy, quantity := a / pr, entryPrice := pr,
              status := .tOpen, reason := r, confidence := c }) := by
  unfold paperBuy
  rw [h1]
  rw [if_neg (by simp), if_neg h2]

/-- A failed sell (no position) leaves the portfolio unchanged. -/
theorem paperSell_nopos (p : PaperPortfolio) (s : String) (q : Option ℚ)
    (pr : ℚ) (r : String) (h : p.positions.lookup s = none) :
    paperSell p s q pr r = (p, none) := by
  unfold paperSell
  rw [h]

/-- A failed sell (excessive quantity) leaves the portfolio unchanged. -/
theorem paperSell_excess (p : PaperPortfolio) (s : String) (q : Option ℚ)
    (pr : ℚ) (r : String) (position : Position)
    (h : p.positions.lookup s = some position)
    (h2 : position.quantity < sellQtyOf position q) :
    paperSell p s q pr r = (p, none) := by
  unfold paperSell
  rw [h]
  simp only
  rw [if_pos (by exact h2)]

/-- The successful-sell shape (the kept/deleted position split is decided
by the dust test on the remainder). -/
theorem paperSell_success (p : PaperPortfolio) (s : String) (q : Option ℚ)
    (pr : ℚ) (r : String) (position : Position)
    (h : p.positions.lookup s = some position)
    (h2 : ¬ position.quantity < sellQtyOf position q) :
    paperSell p s q pr r =
      ({ p with
           balance := p.balance + sellQtyOf position q * pr,
           positions :=
             if position.quantity - sellQtyOf position q > 1/1000000 then
               posSet p.positions s
                 { position with quantity := position.quantity - sellQtyOf position q }
             else posDelete p.positions s,
           trades := p.trades ++
             [{ symbol := s, side := .sell, quantity := sellQtyOf position q,
                entryPrice := position.avgCost, exitPrice := some pr,
                pnl := some (sellQtyOf position q * pr
                  - sellQtyOf position q * position.avgCost),
                pnlPercent := some ((sellQtyOf position q * pr
                  - sellQtyOf position q * position.avgCost)
                  / (sellQtyOf position q * position.avgCost) * 100),
                status := .tClosed, reason := r, confidence := 0 }] },
       some { symbol := s, side := .sell, quantity := sellQtyOf position q,
              entryPrice := position.avgCost, exitPrice := some pr,
              pnl := some (sellQtyOf position q * pr
                - sellQtyOf position q * position.avgCost),
              pnlPercent := some ((sellQtyOf position q * pr
                - sellQtyOf position q * position.avgCost)
                / (sellQtyOf position q * position.avgCost) * 100),
              status := .tClosed, reason := r, confidence := 0 }) := by
  unfold paperSell
  rw [h]
  simp only
  rw [if_neg (by exact h2)]
  rfl

/-- One reconciliation-preserving step: under `opOk`, applying one
operation keeps the position keys duplicate-free, preserves the initial
balance, and keeps `balance = expectedBalance` exact. -/
theorem applyOp_invariant (p : PaperPortfolio) (op : PaperOp)
    (hnd : (p.positions.map Prod.fst).Nodup)
    (hbal : p.balance = expectedBalance p)
    (hok : opOk p op) :
    ((applyOp p op).positions.map Prod.fst).Nodup
  ∧ (applyOp p op).balance = expectedBalance (applyOp p op)
  ∧ (applyOp p op).initialBalance = p.initialBalance := by
  rcases op with ⟨s, a, pr⟩ | ⟨s, q, pr⟩
  · have hpr : pr ≠ 0 := hok
    rcases hlook : p.positions.lookup s with _ | position
    · by_cases h2 : p.balance < a
      · rw [applyOp, paperBuy_poor p s a pr _ _ hlook h2]
        exact ⟨hnd, hbal, rfl⟩
      · rw [applyOp, paperBuy_success p s a pr _ _ hlook h2]
        refine ⟨posSet_keys_nodup _ _ _ hnd, ?_, rfl⟩
        have hfil : posDelete p.positions s = p.positions :=
          posDelete_of_lookup_none _ _ hlook
        simp only [expectedBalance, closedTradesPnl, openPositionsCost_eq,
          List.filter_append, List.map_append, List.sum_append]
        rw [show posCostSum (posSet p.positions s { quantity := a / pr, avgCost := pr })
            = posCostSum p.positions + a by
          rw [posCostSum_posSet, hfil]
          simp only
          rw [div_mul_cancel₀ a hpr]]
        rw [hbal, expectedBalance, closedTradesPnl, openPositionsCost_eq]
        simp
        ring
    · rw [applyOp, paperBuy_dup p s a pr _ _ (by rw [hlook]; rfl)]
      exact ⟨hnd, hbal, rfl⟩
  · rcases hlook : p.positions.lookup s with _ | position
    · rw [applyOp, paperSell_nopos p s q pr _ hlook]
      exact ⟨hnd, hbal, rfl⟩
    · simp only [opOk, hlook] at hok
      by_cases h2 : position.quantity < sellQtyOf position q
      · rw [applyOp, paperSell_excess p s q pr _ position hlook h2]
        exact ⟨hnd, hbal, rfl⟩
      · have hok2 := hok (le_of_not_lt h2)
        rw [applyOp, paperSell_success p s q pr _ position hlook h2]
        by_cases h3 : position.quantity - sellQtyOf position q > 1/1000000
        · rw [if_pos h3]
          refine ⟨posSet_keys_nodup _ _ _ hnd, ?_, rfl⟩
          have hsplit := posCostSum_split p.positions s position hnd hlook
          simp only [expectedBalance, closedTradesPnl, openPositionsCost_eq,
            List.filter_append, List.map_append, List.sum_append]
          rw [show posCostSum (posSet p.positions s
              { position with quantity := position.quantity - sellQtyOf position q })
              = posCostSum p.positions - sellQtyOf position q * position.avgCost by
            rw [posCostSum_posSet]
            simp only
            rw [show posCostSum (posDelete p.positions s)
                = posCostSum p.positions - position.quantity * position.avgCost by
              rw [hsplit]; ring]
            ring]
          rw [hbal, expectedBalance, closedTradesPnl, openPositionsCost_eq]
          simp
          ring
        · rw [if_neg h3]
          have hzero : position.quantity - sellQtyOf position q = 0 := by
            rcases hok2 with hz | hgt
            · exact hz
            · exact absurd hgt h3
          have hq : sellQtyOf position q = position.quantity := by linarith
          refine ⟨posDelete_keys_nodup _ _ hnd, ?_, rfl⟩
          have hsplit := posCostSum_split p.positions s position hnd hlook
          simp only [expectedBalance, closedTradesPnl, openPositionsCost_eq,
            List.filter_append, List.map_append, List.sum_append]
          rw [show posCostSum (posDelete p.positions s)
              = posCostSum p.positions - position.quantity * position.avgCost by
            rw [hsplit]; ring]
          rw [hbal, expectedBalance, closedTradesPnl, openPositionsCost_eq, hq]
          simp
          ring

theorem applyOps_invariant (ops : List PaperOp) (p : PaperPortfolio)
    (hnd : (p.positions.map Prod.fst).Nodup)
    (hbal : p.balance = expectedBalance p)
    (h : traceOk p ops) :
    (applyOps p ops).balance = expectedBalance (applyOps p ops) := by
  induction ops generalizing p with
  | nil => exact hbal
  | cons op rest ih =>
    rcases h with ⟨hok, hrest⟩
    have hstep := applyOp_invariant p op hnd hbal hok
    exact ih (applyOp p op) hstep.1 hstep.2.1 hrest

/-- C5 amended: starting from a fresh portfolio, any sequence of
operations whose buys carry a nonzero price and whose successful sells
never leave a positive remainder of at most 0.000001 units (the
dust-deletion branch) keeps `balance = initialBalance + Σ closed pnl -
Σ open cost` exactly; and on load, a stored balance whose discrepancy
from the recomputed value exceeds $1 is overwritten with it (and left
alone otherwise). -/
theorem balance_invariant_amended (b : ℚ) (ops : List PaperOp)
    (h : traceOk (initializePaperPortfolio b) ops) :
    (applyOps (initializePaperPortfolio b) ops).balance
      = expectedBalance (applyOps (initializePaperPortfolio b) ops)
  ∧ (∀ p : PaperPortfolio, 1 < |p.balance - expectedBalance p| →
      (repairPortfolioBalance p).balance = expectedBalance p)
  ∧ (∀ p : PaperPortfolio, ¬ 1 < |p.balance - expectedBalance p| →
      repairPortfolioBalance p = p) := by
  refine ⟨?_, ?_, ?_⟩
  · apply applyOps_invariant ops _ (by simp [initializePaperPortfolio]) _ h
    simp [initializePaperPortfolio, expectedBalance, closedTradesPnl, openPositionsCost]
  · intro p hp
    unfold repairPortfolioBalance
    rw [if_pos hp]
  · intro p hp
    unfold repairPortfolioBalance
    rw [if_neg hp]

/-- Closed witness for the amended C5 theorem: a concrete dust-free trace
(buy $1000 at $50,000, sell 0.01 units at $60,000) reconciles exactly, and
a concretely corrupted portfolio ($50 drift) is repaired. -/
theorem balance_invariant_amended_witness :
    ((applyOps (initializePaperPortfolio 1000) c5okOps).balance
      = expectedBalance (applyOps (initializePaperPortfolio 1000) c5okOps))
  ∧ (repairPortfolioBalance c5corrupt).balance = expectedBalance c5corrupt := by
  have h := balance_invariant_amended 1000 c5okOps (by
    constructor
    · decide
    · constructor
      · decide
      · trivial)
  exact ⟨h.1, h.2.1 c5corrupt (by decide)⟩

/-! ## C7 — volatility classification and multiplier scaling -/

/-- C7 counterexample: on a concrete low-volatility series (ATR = 1 on
closes of 100, so ATR percent = 1 < 2) with base multipliers SL 2.0 /
TP 3.0, the take-profit multiplier is scaled by 0.9, not 0.8: the
resulting `takeProfit2` is `100 + 1·(3·0.9) = 102.7`, not the
`100 + 1·(3·0.8) = 102.4` the claim's scaling would give. -/
theorem volatility_lowTP_counterexample :
    (calculateDynamicRiskLevels c7candles 100 .long 2 3).volatilityLevel = .low
  ∧ (calculateDynamicRiskLevels c7candles 100 .long 2 3).atrValue = 1
  ∧ (calculateDynamicRiskLevels c7candles 100 .long 2 3).takeProfit2 = 1027/10
  ∧ (calculateDynamicRiskLevels c7candles 100 .long 2 3).takeProfit2
      ≠ 100 + 1 * (3 * (8/10)) := by
  refine ⟨by decide, by decide, by decide, by decide⟩

/-- C7 amended: the volatility classification is as claimed (ATR percent
`< 2` low, `< 5` medium, else high — so exactly 5 % classifies as high),
and the multiplier scaling for high volatility is SL ×0.8 / TP ×1.2 as
claimed, but for low volatility it is SL ×1.2 / TP ×0.9 (the source's
take-profit factor is 0.9, not 0.8); medium leaves both unchanged.
Stated for a long position; the distances are mirrored for short. -/
theorem volatility_scaling_amended (candles : List Candle) (entryPrice slM tpM : ℚ) :
    ((calculateDynamicRiskLevels candles entryPrice .long slM tpM).atrValue
      = dynCurrentATR candles entryPrice)
  ∧ (dynCurrentATR candles entryPrice / dynAvgPrice candles * 100 < 2 →
      (calculateDynamicRiskLevels candles entryPrice .long slM tpM).volatilityLevel
          = .low
      ∧ (calculateDynamicRiskLevels candles entryPrice .long slM tpM).stopLoss
          = entryPrice - dynCurrentATR candles entryPrice * (slM * (12/10))
      ∧ (calculateDynamicRiskLevels candles entryPrice .long slM tpM).takeProfit2
          = entryPrice + dynCurrentATR candles entryPrice * (tpM * (9/10)))
  ∧ (2 ≤ dynCurrentATR candles entryPrice / dynAvgPrice candles * 100 →
      dynCurrentATR candles entryPrice / dynAvgPrice candles * 100 < 5 →
      (calculateDynamicRiskLevels candles entryPrice .long slM tpM).volatilityLevel
          = .medium
      ∧ (calculateDynamicRiskLevels candles entryPrice .long slM tpM).stopLoss
          = entryPrice - dynCurrentATR candles entryPrice * slM
      ∧ (calculateDynamicRiskLevels candles entryPrice .long slM tpM).takeProfit2
          = entryPrice + dynCurrentATR candles entryPrice * tpM)
  ∧ (5 ≤ dynCurrentATR candles entryPrice / dynAvgPrice candles * 100 →
      (calculateDynamicRiskLevels candles entryPrice .long slM tpM).volatilityLevel
          = .high
      ∧ (calculateDynamicRiskLevels candles entryPrice .long slM tpM).stopLoss
          = entryPrice - dynCurrentATR candles entryPrice * (slM * (8/10))
      ∧ (calculateDynamicRiskLevels candles entryPrice .long slM tpM).takeProfit2
          = entryPrice + dynCurrentATR candles entryPrice * (tpM * (12/10))) := by
  refine ⟨rfl, ?_, ?_, ?_⟩
  · intro h1
    simp [calculateDynamicRiskLevels, dynVolatility, if_pos h1]
  · intro h1 h2
    simp [calculateDynamicRiskLevels, dynVolatility, if_neg (not_lt.mpr h1), if_pos h2]
  · intro h1
    simp [calculateDynamicRiskLevels, dynVolatility,
      if_neg (not_lt.mpr (by linarith : (2:ℚ) ≤ dynCurrentATR candles entryPrice / dynAvgPrice candles * 100)),
      if_neg (not_lt.mpr h1)]

/-- Closed witness for the amended C7 theorem at the concrete
low-volatility series. -/
theorem volatility_scaling_amended_witness :
    (calculateDynamicRiskLevels c7candles 100 .long 2 3).volatilityLevel = .low
  ∧ (calculateDynamicRiskLevels c7candles 100 .long 2 3).stopLoss
      = 100 - dynCurrentATR c7candles 100 * (2 * (12/10))
  ∧ (calculateDynamicRiskLevels c7candles 100 .long 2 3).takeProfit2
      = 100 + dynCurrentATR c7candles 100 * (3 * (9/10)) :=
  (volatility_scaling_amended c7candles 100 2 3).2.1 (by decide)

/-! ## C10 — unguarded Aether division -/

/-- C10: a valid 50-candle series whose last 20 closes are equal makes the
Bollinger standard deviation zero, so `upper = middle` at the last index
and the divisor `u - mid` of `getAetherVote`'s score is exactly 0 — while
`generateCouncilDecision`'s length precondition is met and all seven votes
(including Aether's) are produced.  The division is unguarded in the
source (in JS it evaluates to `NaN`, which flows into the vote's score). -/
theorem aether_divisor_zero_reachable :
    50 ≤ (flatCandles 50).length
  ∧ aetherDenom (flatCandles 50) = 0
  ∧ (generateCouncilDecision (flatCandles 50) "BTCUSDT").votes.length = 7 := by
  refine ⟨by decide, by decide, by decide⟩

/-! ## C4 — risk-level ordering -/

/-- C4 counterexample: on a well-formed 60-bar series (every low ≤ high)
with positive entry price 100.9, the smart blend's `takeProfit2` (pulled
down to 0.995 × the nearest resistance 101) falls below `takeProfit1`
(which stays at its ATR-based value) and even below the entry price, so
the claimed ordering `entryPrice < takeProfit1 < takeProfit2` fails for
`getSmartRiskLevels`. -/
theorem smart_levels_ordering_counterexample :
    0 < (1009/10 : ℚ)
  ∧ (∀ c ∈ c4candles, c.low ≤ c.high)
  ∧ (getSmartRiskLevels c4candles (1009/10) .long).takeProfit2
      < (getSmartRiskLevels c4candles (1009/10) .long).takeProfit1
  ∧ (getSmartRiskLevels c4candles (1009/10) .long).takeProfit2
      < (getSmartRiskLevels c4candles (1009/10) .long).entryPrice := by
  refine ⟨by decide, by decide, by decide, by decide⟩

theorem trList_nonneg (candles : List Candle)
    (hc : ∀ c ∈ candles, c.low ≤ c.high) :
    ∀ t ∈ trList candles, 0 ≤ t := by
  intro t ht
  unfold trList at ht
  match candles, ht with
  | c0 :: rest, ht =>
    rcases List.mem_cons.mp ht with rfl | hmem
    · have := hc c0 (List.mem_cons_self c0 rest)
      linarith
    · simp only [List.mem_map] at hmem
      obtain ⟨pc, _, rfl⟩ := hmem
      have h1 : (0:ℚ) ≤ |pc.2.high - pc.1.close| := abs_nonneg _
      have h2 : |pc.2.high - pc.1.close| ≤ max |pc.2.high - pc.1.close| |pc.2.low - pc.1.close| :=
        le_max_left _ _
      calc (0:ℚ) ≤ max |pc.2.high - pc.1.close| |pc.2.low - pc.1.close| := le_trans h1 h2
        _ ≤ _ := le_max_right _ _

theorem atrFrom_nonneg (period : ℕ) (trs : List ℚ) (hts : ∀ t ∈ trs, 0 ≤ t)
    (hp : 1 ≤ period) : ∀ j, 0 ≤ atrFrom period trs j := by
  intro j
  induction j with
  | zero =>
    unfold atrFrom
    apply div_nonneg _ (by positivity)
    apply List.sum_nonneg
    intro x hx
    exact hts x (List.mem_of_mem_take hx)
  | succ j ih =>
    unfold atrFrom
    apply div_nonneg _ (by positivity)
    have hp' : (0:ℚ) ≤ (period : ℚ) - 1 := by
      have : (1:ℚ) ≤ (period : ℚ) := by exact_mod_cast hp
      linarith
    have htr : 0 ≤ trs.getD (period + j) 0 := by
      rcases lt_or_ge (period + j) trs.length with hlt | hge
      · refine hts _ ?_
        rw [List.getD_eq_getElem?_getD]
        have := List.getElem?_eq_getElem hlt
        rw [this]
        simp only [Option.getD_some]
        exact List.getElem_mem hlt
      · rw [List.getD_eq_getElem?_getD, List.getElem?_eq_none hge]
        simp
    nlinarith

theorem calculateATR_some_nonneg (candles : List Candle) (i : ℕ) (a : ℚ)
    (hc : ∀ c ∈ candles, c.low ≤ c.high)
    (h : (calculateATR candles 14).getD i none = some a) : 0 ≤ a := by
  unfold calculateATR at h
  split at h
  · rw [List.getD_eq_getElem?_getD] at h
    rcases h' : (List.replicate candles.length (none : Option ℚ))[i]? with _ | v
    · rw [h'] at h; simp at h
    · rw [h'] at h
      have hv := List.eq_of_mem_replicate (List.getElem?_mem h')
      subst hv
      simp at h
  · rw [List.getD_eq_getElem?_getD] at h
    rcases h' : ((List.range candles.length).map fun i =>
        if 14 - 1 ≤ i then some (atrFrom 14 (trList candles) (i - (14 - 1)))
        else none)[i]? with _ | v
    · rw [h'] at h; simp at h
    · rw [h'] at h
      simp only [Option.getD_some] at h
      subst h
      rw [List.getElem?_map] at h'
      rcases h'' : (List.range candles.length)[i]? with _ | j
      · rw [h''] at h'; simp at h'
      · rw [h''] at h'
        simp only [Option.map_some'] at h'
        split at h'
        · have ha : a = atrFrom 14 (trList candles) (j - (14 - 1)) := by
            injection h' with h'
            injection h'.symm
          rw [ha]
          exact atrFrom_nonneg 14 (trList candles) (trList_nonneg candles hc)
            (by norm_num) _
        · simp at h'

theorem dynCurrentATR_pos (candles : List Candle) (entryPrice : ℚ)
    (he : 0 < entryPrice) (hc : ∀ c ∈ candles, c.low ≤ c.high) :
    0 < dynCurrentATR candles entryPrice := by
  unfold dynCurrentATR
  have hq : (0:ℚ) < 2/100 := by norm_num
  simp only [jsOr]
  rcases h : (calculateATR candles 14).getD ((calculateATR candles 14).length - 1) none
    with _ | a
  · exact mul_pos he hq
  · show 0 < if a = 0 then entryPrice * (2/100) else a
    by_cases ha : a = 0
    · rw [if_pos ha]
      exact mul_pos he hq
    · rw [if_neg ha]
      have hnn : 0 ≤ a := calculateATR_some_nonneg candles _ a hc h
      exact lt_of_le_of_ne hnn (Ne.symm ha)

/-- C4 amended: for every candle series whose bars satisfy `low ≤ high`,
every positive entry price, and positive base multipliers, the ATR-based
`calculateDynamicRiskLevels` satisfies the claimed ordering
(`stopLoss < entry < takeProfit1 < takeProfit2 < takeProfit3` for long,
mirrored for short).  The smart blend `getSmartRiskLevels` does not: it
replaces only `stopLoss` and `takeProfit2`, so the tier ordering can break
(see the counterexample). -/
theorem dynamic_levels_ordering_amended (candles : List Candle)
    (entryPrice slM tpM : ℚ) (he : 0 < entryPrice) (hsl : 0 < slM) (htp : 0 < tpM)
    (hc : ∀ c ∈ candles, c.low ≤ c.high) :
    ((calculateDynamicRiskLevels candles entryPrice .long slM tpM).stopLoss
        < (calculateDynamicRiskLevels candles entryPrice .long slM tpM).entryPrice
      ∧ (calculateDynamicRiskLevels candles entryPrice .long slM tpM).entryPrice
        < (calculateDynamicRiskLevels candles entryPrice .long slM tpM).takeProfit1
      ∧ (calculateDynamicRiskLevels candles entryPrice .long slM tpM).takeProfit1
        < (calculateDynamicRiskLevels candles entryPrice .long slM tpM).takeProfit2
      ∧ (calculateDynamicRiskLevels candles entryPrice .long slM tpM).takeProfit2
        < (calculateDynamicRiskLevels candles entryPrice .long slM tpM).takeProfit3)
  ∧ ((calculateDynamicRiskLevels candles entryPrice .short slM tpM).takeProfit3
        < (calculateDynamicRiskLevels candles entryPrice .short slM tpM).takeProfit2
      ∧ (calculateDynamicRiskLevels candles entryPrice .short slM tpM).takeProfit2
        < (calculateDynamicRiskLevels candles entryPrice .short slM tpM).takeProfit1
      ∧ (calculateDynamicRiskLevels candles entryPrice .short slM tpM).takeProfit1
        < (calculateDynamicRiskLevels candles entryPrice .short slM tpM).entryPrice
      ∧ (calculateDynamicRiskLevels candles entryPrice .short slM tpM).entryPrice
        < (calculateDynamicRiskLevels candles entryPrice .short slM tpM).stopLoss) := by
  have hA := dynCurrentATR_pos candles entryPrice he hc
  have hAsl := mul_pos hA hsl
  have hAtp := mul_pos hA htp
  rcases hv : dynVolatility candles entryPrice with _ | _ | _ <;>
    simp only [calculateDynamicRiskLevels, hv] <;>
    refine ⟨⟨by nlinarith, by nlinarith, by nlinarith, by nlinarith⟩,
      by nlinarith, by nlinarith, by nlinarith, by nlinarith⟩

/-- Closed witness for the amended C4 theorem at the concrete series
`c7candles` and entry price 100. -/
theorem dynamic_levels_ordering_amended_witness :
    ((calculateDynamicRiskLevels c7candles 100 .long 2 3).stopLoss
        < (calculateDynamicRiskLevels c7candles 100 .long 2 3).entryPrice
      ∧ (calculateDynamicRiskLevels c7candles 100 .long 2 3).entryPrice
        < (calculateDynamicRiskLevels c7candles 100 .long 2 3).takeProfit1
      ∧ (calculateDynamicRiskLevels c7candles 100 .long 2 3).takeProfit1
        < (calculateDynamicRiskLevels c7candles 100 .long 2 3).takeProfit2
      ∧ (calculateDynamicRiskLevels c7candles 100 .long 2 3).takeProfit2
        < (calculateDynamicRiskLevels c7candles 100 .long 2 3).takeProfit3)
  ∧ ((calculateDynamicRiskLevels c7candles 100 .short 2 3).takeProfit3
        < (calculateDynamicRiskLevels c7candles 100 .short 2 3).takeProfit2
      ∧ (calculateDynamicRiskLevels c7candles 100 .short 2 3).takeProfit2
        < (calculateDynamicRiskLevels c7candles 100 .short 2 3).takeProfit1
      ∧ (calculateDynamicRiskLevels c7candles 100 .short 2 3).takeProfit1
        < (calculateDynamicRiskLevels c7candles 100 .short 2 3).entryPrice
      ∧ (calculateDynamicRiskLevels c7candles 100 .short 2 3).entryPrice
        < (calculateDynamicRiskLevels c7candles 100 .short 2 3).stopLoss) :=
  dynamic_levels_ordering_amended c7candles 100 2 3 (by norm_num) (by norm_num)
    (by norm_num) (by decide)

/-! ## C8 — RSI bounds, warm-up and the zero-average-loss case -/

theorem calculateRSI_length (values : List ℚ) (period : ℕ) :
    (calculateRSI values period).length = values.length := by
  unfold calculateRSI
  split <;> simp

theorem calculateRSI_getD (values : List ℚ) (period i : ℕ) (hi : i < values.length) :
    (calculateRSI values period).getD i none =
      if period ≤ i ∧ period < values.length
      then some (rsiAt values period (i - period)) else none := by
  unfold calculateRSI
  by_cases h : values.length ≤ period
  · rw [if_pos h, List.getD_eq_getElem?_getD, List.getElem?_replicate, if_pos hi]
    simp only [Option.getD_some]
    rw [if_neg (by omega)]
  · push_neg at h
    rw [if_neg (by omega), List.getD_eq_getElem?_getD, List.getElem?_map,
      List.getElem?_range hi]
    simp only [Option.map_some', Option.getD_some]
    by_cases hp : period ≤ i
    · rw [if_pos hp, if_pos ⟨hp, h⟩]
    · rw [if_neg hp, if_neg (by omega)]

theorem calculateRSI_getD_oob (values : List ℚ) (period i : ℕ)
    (hi : values.length ≤ i) :
    (calculateRSI values period).getD i none = none := by
  rw [List.getD_eq_getElem?_getD, List.getElem?_eq_none]
  · rfl
  · rw [calculateRSI_length]; exact hi

theorem wilderAvg_nonneg (period : ℕ) (f : ℚ → ℚ) (values : List ℚ)
    (hf : ∀ c, 0 ≤ f c) (j : ℕ) : 0 ≤ wilderAvg period f values j := by
  induction j with
  | zero =>
    unfold wilderAvg
    apply div_nonneg _ (by positivity)
    apply List.sum_nonneg
    intro x hx
    simp only [List.mem_map] at hx
    obtain ⟨t, _, rfl⟩ := hx
    exact hf _
  | succ j ih =>
    unfold wilderAvg
    rcases Nat.eq_zero_or_pos period with hp | hp
    · subst hp; simp
    · apply div_nonneg _ (by positivity)
      have h1 : (0:ℚ) ≤ (period : ℚ) - 1 := by
        have : (1:ℚ) ≤ (period : ℚ) := by exact_mod_cast hp
        linarith
      have := hf (chg values (period + j + 1))
      nlinarith

theorem rsiAt_bounds (values : List ℚ) (period : ℕ) (j : ℕ) :
    0 ≤ rsiAt values period j ∧ rsiAt values period j ≤ 100 := by
  unfold rsiAt
  split
  · norm_num
  · rename_i hL
    have haL : 0 ≤ wilderAvg period lossOf values j :=
      wilderAvg_nonneg period lossOf values (by
        intro c; unfold lossOf; split <;> [linarith; norm_num]) j
    have haL' : 0 < wilderAvg period lossOf values j := lt_of_le_of_ne haL (Ne.symm hL)
    have haG : 0 ≤ wilderAvg period gainOf values j :=
      wilderAvg_nonneg period gainOf values (by
        intro c; unfold gainOf; split <;> [linarith; norm_num]) j
    have hrs : 0 ≤ wilderAvg period gainOf values j / wilderAvg period lossOf values j :=
      div_nonneg haG haL
    have h1 : (0:ℚ) < 1 + wilderAvg period gainOf values j / wilderAvg period lossOf values j := by
      linarith
    constructor
    · have hle : 100 / (1 + wilderAvg period gainOf values j / wilderAvg period lossOf values j) ≤ 100 := by
        rw [div_le_iff₀ h1]
        nlinarith
      linarith
    · have hpos : 0 < 100 / (1 + wilderAvg period gainOf values j / wilderAvg period lossOf values j) := by
        positivity
      linarith

/-- C8: every defined RSI value lies in [0, 100]; the defined values start
exactly at index `period` (with an all-null series when the input is not
longer than `period`); and whenever the Wilder-smoothed average loss at an
emitted index is 0 the value is exactly 100. -/
theorem rsi_bounds_warmup_avgLoss (values : List ℚ) (period : ℕ) :
    ((calculateRSI values period).length = values.length)
  ∧ (values.length ≤ period → ∀ x ∈ calculateRSI values period, x = none)
  ∧ (∀ i, i < values.length →
      (((calculateRSI values period).getD i none).isSome ↔
        period ≤ i ∧ period < values.length))
  ∧ (∀ i r, (calculateRSI values period).getD i none = some r → 0 ≤ r ∧ r ≤ 100)
  ∧ (∀ i, period ≤ i → i < values.length →
      wilderAvg period lossOf values (i - period) = 0 →
      (calculateRSI values period).getD i none = some 100) := by
  refine ⟨calculateRSI_length values period, ?_, ?_, ?_, ?_⟩
  · intro h x hx
    unfold calculateRSI at hx
    rw [if_pos h] at hx
    exact List.eq_of_mem_replicate hx
  · intro i hi
    rw [calculateRSI_getD values period i hi]
    split
    · simpa using (by assumption)
    · rename_i hcond
      simp only [Option.isSome_none, Bool.false_eq_true, false_iff]
      exact hcond
  · intro i r hr
    by_cases hi : i < values.length
    · rw [calculateRSI_getD values period i hi] at hr
      split at hr
      · have : r = rsiAt values period (i - period) := by injection hr.symm
        rw [this]
        exact rsiAt_bounds values period (i - period)
      · cases hr
    · rw [calculateRSI_getD_oob values period i (by omega)] at hr
      cases hr
  · intro i hpi hi hloss
    rw [calculateRSI_getD values period i hi, if_pos ⟨hpi, by omega⟩]
    unfold rsiAt
    rw [if_pos hloss]

/-- Closed witness for the RSI theorem: applied at concrete series and
periods, with every hypothesis discharged by computation. -/
theorem rsi_bounds_warmup_avgLoss_witness :
    (((calculateRSI [1, 2, 4, 3] 2).getD 2 none).isSome ↔ 2 ≤ 2 ∧ 2 < 4)
  ∧ (∀ i r, (calculateRSI [1, 2, 4, 3] 2).getD i none = some r → 0 ≤ r ∧ r ≤ 100)
  ∧ (calculateRSI [3, 4, 5, 6] 2).getD 2 none = some 100 := by
  refine ⟨(rsi_bounds_warmup_avgLoss [1, 2, 4, 3] 2).2.2.1 2 (by decide),
    (rsi_bounds_warmup_avgLoss [1, 2, 4, 3] 2).2.2.2.1, ?_⟩
  exact (rsi_bounds_warmup_avgLoss [3, 4, 5, 6] 2).2.2.2.2 2 (by decide)
    (by decide) (by decide)

/-! ## C1 — council decision validity -/

theorem council_finalAction_of_ge (candles : List Candle) (symbol : String)
    (h : ¬ candles.length < 50) :
    (generateCouncilDecision candles symbol).finalAction
      = councilAction
          (jsOr ((calculateRSI (candles.map (·.close)) 14).getD
            ((candles.map (·.close)).length - 1) none) 50)
          ((councilVotes candles).filter fun v => v.direction = Dir.buy).length
          ((councilVotes candles).filter fun v => v.direction = Dir.sell).length := by
  unfold generateCouncilDecision
  rw [if_neg h]

theorem council_votes_of_ge (candles : List Candle) (symbol : String)
    (h : ¬ candles.length < 50) :
    (generateCouncilDecision candles symbol).votes = councilVotes candles := by
  unfold generateCouncilDecision
  rw [if_neg h]

theorem councilAction_cases (r0 : ℚ) (bc sc : ℕ) :
    (councilAction (jsOr (some r0) 50) bc sc = .buy → r0 < 24 ∨ 4 ≤ bc)
  ∧ (councilAction (jsOr (some r0) 50) bc sc = .sell → (78 < r0 ∧ 24 ≤ r0) ∨ 4 ≤ sc)
  ∧ (24 ≤ r0 → r0 ≤ 78 → bc < 4 → sc < 4 →
      councilAction (jsOr (some r0) 50) bc sc = .hold) := by
  unfold councilAction
  simp only [jsOr]
  by_cases hz : r0 = 0
  · subst hz
    norm_num
    intro hs
    by_cases hbc : 4 ≤ bc
    · rw [if_pos hbc] at hs; cases hs
    · rw [if_neg hbc] at hs
      by_cases hsc : 4 ≤ sc
      · exact hsc
      · rw [if_neg hsc] at hs; cases hs
  · simp only [if_neg hz]
    refine ⟨?_, ?_, ?_⟩
    · intro hb
      by_cases h1 : r0 < 24
      · exact Or.inl h1
      · rw [if_neg h1] at hb
        by_cases h2 : r0 > 78
        · rw [if_pos h2] at hb; cases hb
        · rw [if_neg h2] at hb
          by_cases h3 : 4 ≤ bc
          · exact Or.inr h3
          · rw [if_neg h3] at hb
            split at hb <;> cases hb
    · intro hs
      by_cases h1 : r0 < 24
      · rw [if_pos h1] at hs; cases hs
      · rw [if_neg h1] at hs
        by_cases h2 : r0 > 78
        · exact Or.inl ⟨h2, by linarith [not_lt.mp h1]⟩
        · rw [if_neg h2] at hs
          by_cases h3 : 4 ≤ bc
          · rw [if_pos h3] at hs; cases hs
          · rw [if_neg h3] at hs
            by_cases h4 : 4 ≤ sc
            · exact Or.inr h4
            · rw [if_neg h4] at hs; cases hs
    · intro h24 h78 hbc hsc
      rw [if_neg (by linarith), if_neg (by linarith),
        if_neg (by omega), if_neg (by omega)]

/-- C1: for series of at least 50 candles, the council returns `buy` only
when RSI(14) at the last bar is below 24 or at least 4 of the 7 votes are
`buy`; it returns `sell` only when RSI(14) exceeds 78 (which entails
RSI ≥ 24) or at least 4 votes are `sell`; and when RSI lies in [24, 78]
and neither side reaches 4 votes it returns `hold`.  For series shorter
than 50 candles it returns the canonical fallback decision — `hold`,
confidence 0, empty vote list. -/
theorem council_decision_validity (candles : List Candle) (symbol : String) :
    (50 ≤ candles.length →
      ((generateCouncilDecision candles symbol).finalAction = .buy →
        (∃ r, (calculateRSI (candles.map (·.close)) 14).getD (candles.length - 1) none
            = some r ∧ r < 24)
        ∨ 4 ≤ ((generateCouncilDecision candles symbol).votes.filter
            fun v => v.direction = Dir.buy).length)
      ∧ ((generateCouncilDecision candles symbol).finalAction = .sell →
        (∃ r, (calculateRSI (candles.map (·.close)) 14).getD (candles.length - 1) none
            = some r ∧ 78 < r ∧ 24 ≤ r)
        ∨ 4 ≤ ((generateCouncilDecision candles symbol).votes.filter
            fun v => v.direction = Dir.sell).length)
      ∧ (∀ r, (calculateRSI (candles.map (·.close)) 14).getD (candles.length - 1) none
            = some r → 24 ≤ r → r ≤ 78 →
          ((generateCouncilDecision candles symbol).votes.filter
            fun v => v.direction = Dir.buy).length < 4 →
          ((generateCouncilDecision candles symbol).votes.filter
            fun v => v.direction = Dir.sell).length < 4 →
          (generateCouncilDecision candles symbol).finalAction = .hold))
  ∧ (candles.length < 50 →
      generateCouncilDecision candles symbol = createFallbackDecision symbol
      ∧ (generateCouncilDecision candles symbol).finalAction = .hold
      ∧ (generateCouncilDecision candles symbol).confidence = 0
      ∧ (generateCouncilDecision candles symbol).votes = []) := by
  constructor
  · intro hlen
    have hcond : ¬ candles.length < 50 := by omega
    have hmlen : (candles.map (·.close)).length = candles.length := by simp
    have hidx : candles.length - 1 < (candles.map (·.close)).length := by
      rw [hmlen]; omega
    have hr : (calculateRSI (candles.map (·.close)) 14).getD (candles.length - 1) none
        = some (rsiAt (candles.map (·.close)) 14 (candles.length - 1 - 14)) := by
      rw [calculateRSI_getD _ 14 _ hidx, if_pos ⟨by omega, by omega⟩]
    have hfa := council_finalAction_of_ge candles symbol hcond
    have hvs := council_votes_of_ge candles symbol hcond
    rw [hmlen] at hfa
    rw [hfa, hvs, hr]
    have hc := councilAction_cases (rsiAt (candles.map (·.close)) 14 (candles.length - 1 - 14))
      ((councilVotes candles).filter fun v => v.direction = Dir.buy).length
      ((councilVotes candles).filter fun v => v.direction = Dir.sell).length
    refine ⟨?_, ?_, ?_⟩
    · intro hb
      rcases hc.1 hb with h | h
      · exact Or.inl ⟨_, rfl, h⟩
      · exact Or.inr h
    · intro hs
      rcases hc.2.1 hs with h | h
      · exact Or.inl ⟨_, rfl, h.1, h.2⟩
      · exact Or.inr h
    · intro r hr' h24 h78 hbc hsc
      have : r = rsiAt (candles.map (·.close)) 14 (candles.length - 1 - 14) := by
        injection hr'.symm
      subst this
      exact hc.2.2 h24 h78 hbc hsc
  · intro hlt
    have : generateCouncilDecision candles symbol = createFallbackDecision symbol := by
      unfold generateCouncilDecision
      rw [if_pos hlt]
    exact ⟨this, by rw [this]; rfl, by rw [this]; rfl, by rw [this]; rfl⟩

/-- Closed witness for the council validity theorem: applied at a concrete
50-candle series (hypothesis `50 ≤ 50` discharged by computation) and at a
concrete 10-candle series (hypothesis `10 < 50` likewise). -/
theorem council_decision_validity_witness :
    ((generateCouncilDecision (flatCandles 50) "BTCUSDT").finalAction = .buy →
      (∃ r, (calculateRSI ((flatCandles 50).map (·.close)) 14).getD
          ((flatCandles 50).length - 1) none = some r ∧ r < 24)
      ∨ 4 ≤ ((generateCouncilDecision (flatCandles 50) "BTCUSDT").votes.filter
          fun v => v.direction = Dir.buy).length)
  ∧ generateCouncilDecision (flatCandles 10) "BTCUSDT"
      = createFallbackDecision "BTCUSDT" :=
  ⟨((council_decision_validity (flatCandles 50) "BTCUSDT").1 (by decide)).1,
   ((council_decision_validity (flatCandles 10) "BTCUSDT").2 (by decide)).1⟩

/-! ## C2 — macdCrossover strategy faults on a missing property -/

theorem generateSignal_macd_error (index : ℕ) (candles : List Candle)
    (ind : BacktestIndicators) :
    generateSignal index candles ind .macdCrossover
      = .error "TypeError: Cannot read properties of undefined" := rfl

theorem btStep_macd_error (candles : List Candle) (ind : BacktestIndicators)
    (cfg : BacktestConfig) (st : BTState) (i : ℕ)
    (hstrat : cfg.strategy = .macdCrossover) :
    btStep candles ind cfg st i
      = .error "TypeError: Cannot read properties of undefined" := by
  unfold btStep
  rw [hstrat]
  rfl

/-- C2 (code bug): with the `macdCrossover` strategy, the signal function
reads `indicators.macd.macdLine` and `indicators.macd.signalLine`, but the
MACD result's fields are named `macd` and `signal` — the reads yield
`undefined` and indexing them throws.  `runBacktest` therefore faults with
a `TypeError` on the very first bar of its loop for every candle series of
length at least 51, instead of completing and signalling on crossovers. -/
theorem runBacktest_macd_crashes (symbol : String) (candles : List Candle)
    (cfg : BacktestConfig) (hstrat : cfg.strategy = .macdCrossover)
    (h : 51 ≤ candles.length) :
    runBacktest symbol candles cfg
      = .error "TypeError: Cannot read properties of undefined" := by
  unfold runBacktest
  rw [if_neg (by omega)]
  obtain ⟨k, hk⟩ : ∃ k, candles.length - 50 = k + 1 := ⟨candles.length - 51, by omega⟩
  simp only [hk, List.range'_succ, List.foldlM_cons,
    btStep_macd_error candles _ cfg _ 50 hstrat]
  rfl

/-- Closed witness for the macdCrossover fault at a concrete 51-bar series. -/
theorem runBacktest_macd_crashes_witness :
    runBacktest "BTCUSDT" (flatCandles 51)
        { DEFAULT_CONFIG with strategy := .macdCrossover }
      = .error "TypeError: Cannot read properties of undefined" :=
  runBacktest_macd_crashes "BTCUSDT" (flatCandles 51)
    { DEFAULT_CONFIG with strategy := .macdCrossover } rfl (by decide)

/-! ## C6 — argusComposite on a flat series -/

set_option maxHeartbeats 4000000 in
/-- C6: running the `argusComposite` backtest over 200 flat (zero-variance)
bars produces zero trades and a final capital equal to the initial capital
(on the flat series RSI is 100, the MACD histogram is 0, price never
leaves the Bollinger bands and never exceeds SMA20, so the composite score
is −4 at every bar: a standing sell signal that never opens a position). -/
theorem argusComposite_flat_backtest :
    (runBacktest "FLAT" (flatCandles 200)
        { DEFAULT_CONFIG with strategy := .argusComposite }).map
      (fun r => (r.totalTrades, r.trades, r.finalCapital, r.initialCapital))
      = .ok (0, [], 10000, 10000) := by decide
